import Mathlib

/-!
Shallow embedding of the MoBI-AV audio/video recorder
(`src/audio_recorder.py`, `src/video_recorder.py`, `src/recorder_core.py`,
`src/lsl_utils.py`).

External collaborators (PyAudio, OpenCV, the filesystem, the LSL bus) are
modelled by explicit environment records whose fields determine the outcome
of each external call; published markers are logged structurally.  Time is
passed in as explicit string parameters (the code calls `datetime.now()`;
no claim depends on the actual clock value).
-/

/-- A published LSL marker, recorded structurally with exactly the values the
recorder passes to `MarkerStreams.send_*` (filenames and negotiated
parameters are `Option`s because the corresponding attributes start as
`None`). -/
inductive Marker where
  | audioStart (subjectId : String) (filename : Option String) (timestamp : String)
      (channels sampleRate : Option Nat) (iso : Option String)
  | audioStop (filename : Option String) (timestamp : String)
  | videoStart (subjectId : String) (filename : Option String) (timestamp iso : String)
      (fps : Option Nat)
  | videoStop (filename : Option String) (timestamp : String)
deriving DecidableEq, Repr

/-- Embedding of `os.path.join(dir, name)` for a directory path without a
trailing separator. -/
def pathJoin (dir name : String) : String := dir ++ "/" ++ name

namespace MarkerStreams

/-- `lsl_utils.py` line 72-75: the payload built by `send_audio_start_marker`. -/
def send_audio_start_marker (subjectId filename timestamp : String)
    (channels sampleRate : Nat) (isoTimestamp : Option String) : String :=
  match isoTimestamp with
  | some iso =>
      "AUDIO_START," ++ subjectId ++ "," ++ filename ++ "," ++ timestamp ++ ","
        ++ toString channels ++ "," ++ toString sampleRate ++ "," ++ iso
  | none =>
      "AUDIO_START," ++ subjectId ++ "," ++ filename ++ "," ++ timestamp ++ ","
        ++ toString channels ++ "," ++ toString sampleRate

/-- `lsl_utils.py` line 86: the payload built by `send_audio_stop_marker`. -/
def send_audio_stop_marker (filename timestamp : String) : String :=
  "AUDIO_STOP," ++ filename ++ "," ++ timestamp

/-- `lsl_utils.py` line 101-103: the payload built by `send_video_start_marker`. -/
def send_video_start_marker (subjectId filename timestamp isoTimestamp : String)
    (fps : Nat) : String :=
  "VIDEO_START," ++ subjectId ++ "," ++ filename ++ "," ++ timestamp ++ ","
    ++ isoTimestamp ++ "," ++ toString fps

/-- `lsl_utils.py` line 113: the payload built by `send_video_stop_marker`. -/
def send_video_stop_marker (filename timestamp : String) : String :=
  "VIDEO_STOP," ++ filename ++ "," ++ timestamp

end MarkerStreams

/-- PyAudio sample-format constant `paFloat32` (portaudio value 1). -/
def paFloat32 : Nat := 1

/-- PyAudio sample-format constant `paInt32` (portaudio value 2). -/
def paInt32 : Nat := 2

/-- PyAudio sample-format constant `paInt24` (portaudio value 4). -/
def paInt24 : Nat := 4

/-- PyAudio sample-format constant `paInt16` (portaudio value 8). -/
def paInt16 : Nat := 8

/-- `audio_recorder.py` lines 196-202: the `format_map` dictionary lookup with
default value 2, `format_map.get(format_value, 2)`. -/
def format_map (formatValue : Nat) : Nat :=
  if formatValue = paInt16 then 2
  else if formatValue = paInt24 then 3
  else if formatValue = paInt32 then 4
  else if formatValue = paFloat32 then 4
  else 2

namespace AudioRecorder

/-- The audio configuration dictionary, already resolved through the
`config.get(..., fallback.get(...))` chains of `start_recording`
(the chains always produce a value; only the resolved values matter). -/
structure Config where
  use_device_defaults : Bool
  channels : Nat
  sample_rate : Nat
  /-- `getattr(pyaudio, format_name)`: the numeric format constant. -/
  formatValue : Nat
  filename_suffix : String
deriving Repr

/-- Outcomes of the external calls made during one `start_recording` call:
whether `find_device` matches; whether `audio_p.open` (line 206) succeeds
(an unsuccessful open raises, landing in the `except` block); the device
info consulted for negotiation; whether an explicitly supplied device index
names an existing device (line 163: `get_device_info_by_index` on a bad
index raises IOError *outside* the try block, escaping the method); and
whether `os.makedirs(destination)` (line 221, inside the try, after the
stream open) succeeds — a failing makedirs raises into the `except` block
with the stream already opened. -/
structure Env where
  deviceFound : Bool
  openOk : Bool
  maxInputChannels : Nat
  defaultSampleRate : Nat
  indexValid : Bool
  makedirsOk : Bool
deriving Repr

/-- The PyAudio stream object held in `self.audio_stream`: whether it is
still open and whether it is currently started. -/
structure Stream where
  isOpen : Bool
  running : Bool
deriving DecidableEq, Repr

/-- The mutable attributes of an `AudioRecorder` instance
(`audio_recorder.py` lines 36-45).  `audio_p : Bool` records whether the
held PyAudio instance is live (not terminated / not `None`). -/
structure State where
  recording : Bool
  audio_stream : Option Stream
  audio_p : Bool
  audio_frames : List Nat
  audio_filename : Option String
  actual_channels : Option Nat
  actual_sample_rate : Option Nat
  actual_sample_width : Option Nat
deriving DecidableEq, Repr

/-- The freshly constructed recorder (`__init__`, lines 36-45). -/
def init : State :=
  { recording := false, audio_stream := none, audio_p := false, audio_frames := []
    audio_filename := none, actual_channels := none, actual_sample_rate := none
    actual_sample_width := none }

/-- Outcome of an `AudioRecorder` call that can escape with an uncaught
exception: `ok`/`failed` are the boolean returns, `raised` an exception that
propagates to the caller.  `start_recording` raises at line 163 when an
invalid explicit device index is supplied; `start_pre_initialized` raises
from `audio_stream.start_stream()` (no try/except; starting a closed or
already-started stream raises). -/
inductive PreStartResult where
  | ok
  | failed
  | raised
deriving DecidableEq, Repr

/-- `AudioRecorder.start_recording` (lines 125-259).  Returns the call
outcome (`raised` when the uncaught line-163 lookup error escapes), the
successor state, and the markers published during the call. -/
def start_recording (cfg : Config) (env : Env) (s : State)
    (subjectId destination : String) (deviceIndex : Option Nat) (preInit : Bool)
    (filename : Option String) (now : String) : PreStartResult × State × List Marker :=
  if s.recording then (.failed, s, [])
  else
    -- lines 150-160: explicit index creates a fresh PyAudio instance;
    -- otherwise find_device either returns a live instance or (None, None)
    let found : Bool := deviceIndex.isSome || env.deviceFound
    if !found then (.failed, { s with audio_p := false }, [])
    else if deviceIndex.isSome && !env.indexValid then
      -- line 163: get_device_info_by_index on an invalid explicit index
      -- raises outside the try block; the fresh instance is never terminated
      (.raised, { s with audio_p := true }, [])
    else
      -- lines 162-202: negotiation, assigned to self before the try block
      let channels : Nat :=
        if cfg.use_device_defaults then min env.maxInputChannels 2
        else min cfg.channels env.maxInputChannels
      let rate : Nat :=
        if cfg.use_device_defaults then env.defaultSampleRate else cfg.sample_rate
      let fmt : Nat := if cfg.use_device_defaults then paInt16 else cfg.formatValue
      let s1 : State :=
        { s with
          audio_p := true, actual_channels := some channels,
          actual_sample_rate := some rate, actual_sample_width := some (format_map fmt) }
      if env.openOk then
        -- lines 206-218: open the stream (started iff not pre-initializing)
        -- and clear the frame buffer
        let s2a : State :=
          { s1 with
            audio_stream := some { isOpen := true, running := !preInit },
            audio_frames := [] }
        if !env.makedirsOk then
          -- line 221: os.makedirs raises after the open; the except block
          -- terminates the PyAudio instance, and Pa_Terminate closes any
          -- stream still open on it — the attribute keeps the dead stream
          (.failed
            , { s2a with
                audio_stream := some { isOpen := false, running := false },
                audio_p := false }
            , [])
        else
          -- lines 224-253: resolve the filename, then flag and marker
          let fn : String := filename.getD
            (pathJoin destination (subjectId ++ cfg.filename_suffix ++ "_" ++ now ++ ".wav"))
          let s2 : State := { s2a with audio_filename := some fn }
          if preInit then (.ok, s2, [])
          else
            (.ok, { s2 with recording := true }
              , [Marker.audioStart subjectId (some fn) now (some channels) (some rate) none])
      else
        -- lines 255-259: the open raised; the except block terminates the
        -- PyAudio instance, the stream attribute is untouched
        (.failed, { s1 with audio_p := false }, [])

/-- `AudioRecorder.start_pre_initialized` (lines 261-294). -/
def start_pre_initialized (s : State) (subjectId now iso : String) :
    PreStartResult × State × List Marker :=
  match s.audio_stream with
  | none => (.failed, s, [])
  | some st =>
      if st.isOpen && !st.running then
        (.ok
          , { s with audio_stream := some { st with running := true }, recording := true }
          , [Marker.audioStart subjectId s.audio_filename now s.actual_channels
              s.actual_sample_rate (some iso)])
      else (.raised, s, [])

/-- `AudioRecorder.stop_recording` (lines 296-331).  `writeOk` is the outcome
of the external WAV write; a failing write raises inside the try block after
the stream has been stopped, closed and the instance terminated, so the
marker is not sent but the flag is still cleared. -/
def stop_recording (s : State) (now : String) (writeOk : Bool) :
    Bool × State × List Marker :=
  if !s.recording then (false, s, [])
  else
    match s.audio_stream with
    | none =>
        -- `self.audio_stream.stop_stream()` on None raises; the except block
        -- clears the flag and returns False
        (false, { s with recording := false }, [])
    | some st =>
        let s1 : State :=
          { s with
            audio_stream := some { st with isOpen := false, running := false },
            audio_p := false }
        if writeOk then
          (true, { s1 with recording := false }, [Marker.audioStop s.audio_filename now])
        else (false, { s1 with recording := false }, [])

end AudioRecorder

namespace VideoRecorder

/-- The video configuration dictionary (`video_settings`). -/
structure Config where
  fps : Nat
  filename_suffix : String
deriving Repr

/-- Outcomes of the external OpenCV calls during one `start_recording` call:
whether a newly created `cv2.VideoCapture` opens, the device-reported FPS
(`CAP_PROP_FPS`, 0 when unknown), and whether an exception is raised during
the writer/warm-up phase (landing in the `except` block). -/
structure Env where
  openOk : Bool
  deviceFps : Nat
  setupRaises : Bool
deriving Repr

/-- The `cv2.VideoCapture` object held in `self.video_capture`:
whether `isOpened()` is true. -/
structure Capture where
  opened : Bool
deriving DecidableEq, Repr

/-- The mutable attributes of a `VideoRecorder` instance
(`video_recorder.py` lines 39-50).  `video_writer : Bool` records whether a
live `cv2.VideoWriter` is held. -/
structure State where
  recording : Bool
  thread_active : Bool
  video_capture : Option Capture
  video_writer : Bool
  video_filename : Option String
  actual_fps : Option Nat
  show_preview : Bool
  preview_active : Bool
deriving DecidableEq, Repr

/-- The freshly constructed recorder (`__init__`, lines 39-50). -/
def init : State :=
  { recording := false, thread_active := false, video_capture := none
    video_writer := false, video_filename := none, actual_fps := none
    show_preview := false, preview_active := false }

/-- `VideoRecorder.start_recording` (lines 73-203). -/
def start_recording (cfg : Config) (env : Env) (s : State)
    (subjectId destination : String) (deviceIndex : Option Nat) (preInit : Bool)
    (filename : Option String) (now iso : String) : Bool × State × List Marker :=
  -- line 93: the guard exempts pre-initialization
  if s.recording && !preInit then (false, s, [])
  else
    -- lines 105-106: reuse an open capture (e.g. held by a preview),
    -- otherwise create a new one whose open outcome env decides
    let cap : Capture :=
      match s.video_capture with
      | some c => if c.opened then c else { opened := env.openOk }
      | none => { opened := env.openOk }
    let s1 : State := { s with video_capture := some cap }
    -- lines 111-113: early return without releasing the capture
    if !cap.opened then (false, s1, [])
    else
      -- lines 116-124: effective frame rate negotiation
      let fps : Nat :=
        if 0 < env.deviceFps && env.deviceFps < cfg.fps then env.deviceFps else cfg.fps
      -- lines 127-134: resolve the filename
      let fn : String := filename.getD
        (pathJoin destination (subjectId ++ cfg.filename_suffix ++ "_" ++ now ++ ".mp4"))
      -- lines 140-146: create the writer
      let s2 : State :=
        { s1 with actual_fps := some fps, video_filename := some fn, video_writer := true }
      if env.setupRaises then
        -- lines 199-203: the except block releases the capture (the attribute
        -- keeps pointing at the released handle); the writer is not released
        (false, { s2 with video_capture := some { opened := false } }, [])
      else if preInit then (true, s2, [])
      else
        -- lines 167-191: start the capture thread and publish the start marker
        (true, { s2 with recording := true, thread_active := true }
          , [Marker.videoStart subjectId (some fn) now iso (some fps)])

/-- `VideoRecorder.start_pre_initialized` (lines 205-237): the only check is
that `self.video_capture` is not `None`; nothing in the body can fail. -/
def start_pre_initialized (s : State) (subjectId now iso : String) :
    Bool × State × List Marker :=
  match s.video_capture with
  | none => (false, s, [])
  | some _ =>
      (true, { s with recording := true, thread_active := true }
        , [Marker.videoStart subjectId s.video_filename now iso s.actual_fps])

/-- `video_recorder.py` line 401: `self.video_thread.join(timeout=5.0)`. -/
def videoJoinTimeout : Nat := 5

/-- `VideoRecorder.stop_recording` (lines 383-432).  `loopExited` is whether
the capture thread exited within `videoJoinTimeout`; it only affects a
logged warning. -/
def stop_recording (s : State) (now : String) (loopExited : Bool) :
    Bool × State × List Marker :=
  if !s.recording then (false, s, [])
  else
    -- lines 394-407: signal the loop, clear the flags, join with timeout
    let s1 : State := { s with thread_active := false, recording := false }
    -- lines 410-412: release the writer
    let s2 : State := { s1 with video_writer := false }
    -- lines 415-417: release the device unless a preview still holds it
    let s3 : State :=
      if s2.video_capture.isSome && !s2.show_preview
      then { s2 with video_capture := none } else s2
    (true, s3, [Marker.videoStop s.video_filename now])

/-- `VideoRecorder.start_preview` (lines 446-481). -/
def start_preview (env : Env) (s : State) : Bool × State :=
  if s.preview_active then (true, s)
  else
    match s.video_capture with
    | some _ => (true, { s with show_preview := true, preview_active := true })
    | none =>
        let cap : Capture := { opened := env.openOk }
        if !cap.opened then (false, { s with video_capture := some cap })
        else
          (true, { s with
            video_capture := some cap, show_preview := true, preview_active := true })

/-- `VideoRecorder.stop_preview` (lines 483-510). -/
def stop_preview (s : State) : Bool × State :=
  if !s.preview_active then (true, s)
  else
    let s1 : State := { s with show_preview := false, preview_active := false }
    if !s1.recording && s1.video_capture.isSome
    then (true, { s1 with video_capture := none }) else (true, s1)

end VideoRecorder

namespace RecorderCore

/-- The coordinator's slice of `config.json`: the filename suffixes used by
`start_both_recordings` (lines 232-233). -/
structure Config where
  audio_filename_suffix : String
  video_filename_suffix : String
deriving Repr

/-- The coordinator's two sessions (`recorder_core.py` lines 35-40). -/
structure Sys where
  audio : AudioRecorder.State
  video : VideoRecorder.State
deriving DecidableEq, Repr

/-- Both freshly constructed recorders. -/
def init : Sys := { audio := AudioRecorder.init, video := VideoRecorder.init }

/-- `RecorderCore.start_both_recordings` (lines 206-280): guard on either
`recording` flag, derive the two shared filenames, arm both recorders with
the results discarded, then start both pre-initialized recordings; an
exception raised by audio's `start_pre_initialized` is caught by the
method's except block before video is started. -/
def start_both_recordings (ccfg : Config) (acfg : AudioRecorder.Config)
    (vcfg : VideoRecorder.Config) (envA : AudioRecorder.Env) (envV : VideoRecorder.Env)
    (sys : Sys) (subjectId destination : String) (audioIndex videoIndex : Option Nat)
    (now isoA isoV : String) : Bool × Sys × List Marker :=
  if sys.audio.recording || sys.video.recording then (false, sys, [])
  else
    let audioFn : String :=
      pathJoin destination (subjectId ++ ccfg.audio_filename_suffix ++ "_" ++ now ++ ".wav")
    let videoFn : String :=
      pathJoin destination (subjectId ++ ccfg.video_filename_suffix ++ "_" ++ now ++ ".mp4")
    -- lines 246-260: pre-initialize both devices, return values ignored
    let ra := AudioRecorder.start_recording acfg envA sys.audio subjectId destination
      audioIndex true (some audioFn) now
    match ra.1 with
    | .raised =>
        -- an exception escaping the audio arm is caught by the method's
        -- except block before the video arm is reached
        (false, { audio := ra.2.1, video := sys.video }, ra.2.2)
    | _ =>
      let rv := VideoRecorder.start_recording vcfg envV sys.video subjectId destination
        videoIndex true (some videoFn) now isoV
      let a1 := ra.2.1
      let v1 := rv.2.1
      -- lines 263-273: start both in quick succession, conjoin the results
      match AudioRecorder.start_pre_initialized a1 subjectId now isoA with
      | (.raised, a2, m3) =>
          -- the uncaught exception lands in the coordinator's except block
          -- before video's start_pre_initialized is reached
          (false, { audio := a2, video := v1 }, ra.2.2 ++ rv.2.2 ++ m3)
      | (r, a2, m3) =>
          let rv2 := VideoRecorder.start_pre_initialized v1 subjectId now isoV
          ((r == .ok) && rv2.1, { audio := a2, video := rv2.2.1 }
            , ra.2.2 ++ rv.2.2 ++ m3 ++ rv2.2.2)

end RecorderCore

/-! ## Operation sequences on a single session -/

/-- A public operation on one audio session, carrying the configuration,
external-call outcomes and clock values of that particular call. -/
inductive AudioOp where
  | start (cfg : AudioRecorder.Config) (env : AudioRecorder.Env)
      (subjectId destination : String) (deviceIndex : Option Nat) (preInit : Bool)
      (filename : Option String) (now : String)
  | startPre (subjectId now iso : String)
  | stop (now : String) (writeOk : Bool)
deriving Repr

/-- One audio operation applied to a state, yielding the successor state and
the markers it published. -/
def audioStep (s : AudioRecorder.State) : AudioOp → AudioRecorder.State × List Marker
  | .start cfg env sid dest di pre fn now =>
      (AudioRecorder.start_recording cfg env s sid dest di pre fn now).2
  | .startPre sid now iso => (AudioRecorder.start_pre_initialized s sid now iso).2
  | .stop now ok => (AudioRecorder.stop_recording s now ok).2

/-- Run a sequence of audio operations, accumulating the published markers in
order. -/
def audioRun (s : AudioRecorder.State) : List AudioOp → AudioRecorder.State × List Marker
  | [] => (s, [])
  | op :: ops =>
      let r := audioStep s op
      let r2 := audioRun r.1 ops
      (r2.1, r.2 ++ r2.2)

/-- A public operation on one video session. -/
inductive VideoOp where
  | start (cfg : VideoRecorder.Config) (env : VideoRecorder.Env)
      (subjectId destination : String) (deviceIndex : Option Nat) (preInit : Bool)
      (filename : Option String) (now iso : String)
  | startPre (subjectId now iso : String)
  | stop (now : String) (loopExited : Bool)
  | startPreview (env : VideoRecorder.Env)
  | stopPreview
deriving Repr

/-- One video operation applied to a state. -/
def videoStep (s : VideoRecorder.State) : VideoOp → VideoRecorder.State × List Marker
  | .start cfg env sid dest di pre fn now iso =>
      (VideoRecorder.start_recording cfg env s sid dest di pre fn now iso).2
  | .startPre sid now iso => (VideoRecorder.start_pre_initialized s sid now iso).2
  | .stop now b => (VideoRecorder.stop_recording s now b).2
  | .startPreview env => ((VideoRecorder.start_preview env s).2, [])
  | .stopPreview => ((VideoRecorder.stop_preview s).2, [])

/-- Run a sequence of video operations, accumulating the published markers. -/
def videoRun (s : VideoRecorder.State) : List VideoOp → VideoRecorder.State × List Marker
  | [] => (s, [])
  | op :: ops =>
      let r := videoStep s op
      let r2 := videoRun r.1 ops
      (r2.1, r.2 ++ r2.2)

/-- Whether a video operation is an arm call, i.e. `start_recording` with
`pre_initialize=True` (the call the source permits even while Recording). -/
def isVideoArm : VideoOp → Bool
  | .start _ _ _ _ _ true _ _ _ => true
  | _ => false

/-- `videoNoArmWhileRec s ops` holds when the sequence never invokes
`start_recording(pre_initialize=True)` at a moment when the session is
Recording. -/
def videoNoArmWhileRec (s : VideoRecorder.State) : List VideoOp → Bool
  | [] => true
  | op :: ops =>
      !(s.recording && isVideoArm op) && videoNoArmWhileRec (videoStep s op).1 ops

/-! ## Counting markers by kind and filename -/

/-- Whether a marker is an audio-start marker carrying filename `f`. -/
def isAudioStartFor (f : Option String) : Marker → Bool
  | .audioStart _ fn _ _ _ _ => fn == f
  | _ => false

/-- Whether a marker is an audio-stop marker carrying filename `f`. -/
def isAudioStopFor (f : Option String) : Marker → Bool
  | .audioStop fn _ => fn == f
  | _ => false

/-- Whether a marker is a video-start marker carrying filename `f`. -/
def isVideoStartFor (f : Option String) : Marker → Bool
  | .videoStart _ fn _ _ _ => fn == f
  | _ => false

/-- Whether a marker is a video-stop marker carrying filename `f`. -/
def isVideoStopFor (f : Option String) : Marker → Bool
  | .videoStop fn _ => fn == f
  | _ => false

/-- Number of audio-start markers for filename `f` in a log. -/
def audioStartsFor (f : Option String) (ms : List Marker) : Nat :=
  ms.countP (fun m => isAudioStartFor f m)

/-- Number of audio-stop markers for filename `f` in a log. -/
def audioStopsFor (f : Option String) (ms : List Marker) : Nat :=
  ms.countP (fun m => isAudioStopFor f m)

/-- Number of video-start markers for filename `f` in a log. -/
def videoStartsFor (f : Option String) (ms : List Marker) : Nat :=
  ms.countP (fun m => isVideoStartFor f m)

/-- Number of video-stop markers for filename `f` in a log. -/
def videoStopsFor (f : Option String) (ms : List Marker) : Nat :=
  ms.countP (fun m => isVideoStopFor f m)

/-- "Idle with device resources released" for an audio session: not
recording, no live PyAudio instance, and any stream object still referenced
has been closed (the source nulls neither attribute; release means the
underlying handles are dead). -/
def AudioRecorder.idleReleased (s : AudioRecorder.State) : Prop :=
  s.recording = false ∧ s.audio_p = false ∧
    ∀ st, s.audio_stream = some st → st.isOpen = false

/-- "Idle with device resources released" for a video session: not
recording, capture thread not active, and any capture object still
referenced has been released (is not open). -/
def VideoRecorder.idleReleased (s : VideoRecorder.State) : Prop :=
  s.recording = false ∧ s.thread_active = false ∧
    ∀ c, s.video_capture = some c → c.opened = false

/-! ## Counting lemmas -/

theorem audioStartsFor_append (f : Option String) (l1 l2 : List Marker) :
    audioStartsFor f (l1 ++ l2) = audioStartsFor f l1 + audioStartsFor f l2 :=
  List.countP_append _ _ _

theorem audioStopsFor_append (f : Option String) (l1 l2 : List Marker) :
    audioStopsFor f (l1 ++ l2) = audioStopsFor f l1 + audioStopsFor f l2 :=
  List.countP_append _ _ _

theorem videoStartsFor_append (f : Option String) (l1 l2 : List Marker) :
    videoStartsFor f (l1 ++ l2) = videoStartsFor f l1 + videoStartsFor f l2 :=
  List.countP_append _ _ _

theorem videoStopsFor_append (f : Option String) (l1 l2 : List Marker) :
    videoStopsFor f (l1 ++ l2) = videoStopsFor f l1 + videoStopsFor f l2 :=
  List.countP_append _ _ _

/-! ## Claim theorems -/

/-- C10: a call of `AudioRecorder.start_recording` while the session is
already recording returns `False`, publishes nothing, and leaves every
session attribute (stream, frame buffer, filename, negotiated channels,
sample rate, sample width) unchanged, regardless of `pre_initialize`. -/
theorem C10_start_noop_when_recording
    (cfg : AudioRecorder.Config) (env : AudioRecorder.Env) (s : AudioRecorder.State)
    (sid dest : String) (di : Option Nat) (pre : Bool) (fn : Option String) (now : String)
    (h : s.recording = true) :
    AudioRecorder.start_recording cfg env s sid dest di pre fn now
      = (AudioRecorder.PreStartResult.failed, s, []) := by
  simp [AudioRecorder.start_recording, h]

/-- Witness for C10 at a concrete recording session. -/
theorem C10_start_noop_when_recording_witness :
    AudioRecorder.start_recording ⟨true, 1, 44100, 8, "_audio"⟩ ⟨true, true, 2, 48000, true, true⟩
        ⟨true, some ⟨true, true⟩, true, [7], some "out/x.wav", some 1, some 44100, some 2⟩
        "s1" "out" none false none "T" =
      (AudioRecorder.PreStartResult.failed,
        ⟨true, some ⟨true, true⟩, true, [7], some "out/x.wav", some 1, some 44100, some 2⟩, []) :=
  C10_start_noop_when_recording _ _ _ _ _ _ _ _ _ rfl

/-- C9: every audio arm records a sample width that is the fixed
format-to-byte-width table applied to the negotiated sample format
(device defaults negotiate 16-bit int): 16-bit int maps to 2 bytes,
24-bit int to 3, 32-bit int and 32-bit float to 4, and every format
outside the table defaults to 2. -/
theorem C9_sample_width_table
    (cfg : AudioRecorder.Config) (env : AudioRecorder.Env) (s : AudioRecorder.State)
    (sid dest : String) (di : Option Nat) (pre : Bool) (fn : Option String) (now : String)
    (h : (AudioRecorder.start_recording cfg env s sid dest di pre fn now).1
      = AudioRecorder.PreStartResult.ok) :
    (AudioRecorder.start_recording cfg env s sid dest di pre fn now).2.1.actual_sample_width
        = some (format_map (if cfg.use_device_defaults then paInt16 else cfg.formatValue))
      ∧ format_map paInt16 = 2 ∧ format_map paInt24 = 3 ∧ format_map paInt32 = 4
      ∧ format_map paFloat32 = 4
      ∧ ∀ v, v ≠ paInt16 → v ≠ paInt24 → v ≠ paInt32 → v ≠ paFloat32 → format_map v = 2 := by
  refine ⟨?_, by decide, by decide, by decide, by decide, ?_⟩
  · simp only [AudioRecorder.start_recording] at h ⊢
    split_ifs at h ⊢ <;> simp_all
  · intro v h1 h2 h3 h4
    simp [format_map, h1, h2, h3, h4]

/-- Witness for C9 at a concrete successful arm. -/
theorem C9_sample_width_table_witness :
    (AudioRecorder.start_recording ⟨false, 2, 48000, 4, "_audio"⟩ ⟨true, true, 2, 44100, true, true⟩
        AudioRecorder.init "s1" "out" none true none "T").2.1.actual_sample_width
        = some (format_map (if (false : Bool) then paInt16 else 4))
      ∧ format_map paInt16 = 2 ∧ format_map paInt24 = 3 ∧ format_map paInt32 = 4
      ∧ format_map paFloat32 = 4
      ∧ ∀ v, v ≠ paInt16 → v ≠ paInt24 → v ≠ paInt32 → v ≠ paFloat32 → format_map v = 2 :=
  C9_sample_width_table ⟨false, 2, 48000, 4, "_audio"⟩ ⟨true, true, 2, 44100, true, true⟩
    AudioRecorder.init "s1" "out" none true none "T" (by decide)

/-- C8: each published marker payload is the comma-joined list of its fields
in exactly the specified order: AUDIO_START carries subjectId, filename,
coarseTimestamp, channels, sampleRate and an optional trailing isoTimestamp;
AUDIO_STOP carries filename, coarseTimestamp; VIDEO_START carries subjectId,
filename, coarseTimestamp, isoTimestamp, fps; VIDEO_STOP carries filename,
coarseTimestamp. -/
theorem C8_marker_field_order (sid fn ts iso : String) (ch sr fps : Nat) :
    MarkerStreams.send_audio_start_marker sid fn ts ch sr none
        = String.intercalate "," ["AUDIO_START", sid, fn, ts, toString ch, toString sr]
      ∧ MarkerStreams.send_audio_start_marker sid fn ts ch sr (some iso)
        = String.intercalate "," ["AUDIO_START", sid, fn, ts, toString ch, toString sr, iso]
      ∧ MarkerStreams.send_audio_stop_marker fn ts
        = String.intercalate "," ["AUDIO_STOP", fn, ts]
      ∧ MarkerStreams.send_video_start_marker sid fn ts iso fps
        = String.intercalate "," ["VIDEO_START", sid, fn, ts, iso, toString fps]
      ∧ MarkerStreams.send_video_stop_marker fn ts
        = String.intercalate "," ["VIDEO_STOP", fn, ts] := by
  refine ⟨?_, ?_, ?_, ?_, ?_⟩ <;>
    simp [MarkerStreams.send_audio_start_marker, MarkerStreams.send_audio_stop_marker,
      MarkerStreams.send_video_start_marker, MarkerStreams.send_video_stop_marker,
      String.intercalate, String.intercalate.go, String.append_assoc]

/-- An arm call (`pre_initialize=True`) never changes the audio `recording`
flag. -/
theorem audio_arm_keeps_recording
    (cfg : AudioRecorder.Config) (env : AudioRecorder.Env) (s : AudioRecorder.State)
    (sid dest : String) (di : Option Nat) (fn : Option String) (now : String) :
    (AudioRecorder.start_recording cfg env s sid dest di true fn now).2.1.recording
      = s.recording := by
  simp only [AudioRecorder.start_recording]
  split_ifs <;> rfl

/-- An arm call (`pre_initialize=True`) never changes the video `recording`
flag. -/
theorem video_arm_keeps_recording
    (cfg : VideoRecorder.Config) (env : VideoRecorder.Env) (s : VideoRecorder.State)
    (sid dest : String) (di : Option Nat) (fn : Option String) (now iso : String) :
    (VideoRecorder.start_recording cfg env s sid dest di true fn now iso).2.1.recording
      = s.recording := by
  simp only [VideoRecorder.start_recording]
  split_ifs <;> rfl

/-- `stop_recording` on a session that is not recording is a rejected no-op
(audio). -/
theorem audio_stop_not_recording (s : AudioRecorder.State) (now : String) (w : Bool)
    (h : s.recording = false) :
    AudioRecorder.stop_recording s now w = (false, s, []) := by
  simp [AudioRecorder.stop_recording, h]

/-- `stop_recording` on a session that is not recording is a rejected no-op
(video). -/
theorem video_stop_not_recording (s : VideoRecorder.State) (now : String) (b : Bool)
    (h : s.recording = false) :
    VideoRecorder.stop_recording s now b = (false, s, []) := by
  simp [VideoRecorder.stop_recording, h]

/-- C5: for either modality and any device selector, arming
(`pre_initialize=True`) from a non-recording session and then calling
`stop_recording` without `start_pre_initialized` fails (returns `False`),
publishes nothing, and changes nothing — no silent success. -/
theorem C5_finalize_after_arm_fails :
    (∀ (cfg : AudioRecorder.Config) (env : AudioRecorder.Env) (s : AudioRecorder.State)
        (sid dest : String) (di : Option Nat) (fn : Option String) (now now2 : String)
        (w : Bool), s.recording = false →
      (AudioRecorder.start_recording cfg env s sid dest di true fn now).1
        = AudioRecorder.PreStartResult.ok →
      AudioRecorder.stop_recording
          (AudioRecorder.start_recording cfg env s sid dest di true fn now).2.1 now2 w
        = (false, (AudioRecorder.start_recording cfg env s sid dest di true fn now).2.1, []))
    ∧ (∀ (cfg : VideoRecorder.Config) (env : VideoRecorder.Env) (s : VideoRecorder.State)
        (sid dest : String) (di : Option Nat) (fn : Option String) (now iso now2 : String)
        (b : Bool), s.recording = false →
      (VideoRecorder.start_recording cfg env s sid dest di true fn now iso).1 = true →
      VideoRecorder.stop_recording
          (VideoRecorder.start_recording cfg env s sid dest di true fn now iso).2.1 now2 b
        = (false, (VideoRecorder.start_recording cfg env s sid dest di true fn now iso).2.1, [])) := by
  constructor
  · intro cfg env s sid dest di fn now now2 w h _
    exact audio_stop_not_recording _ _ _ ((audio_arm_keeps_recording cfg env s sid dest di fn now).trans h)
  · intro cfg env s sid dest di fn now iso now2 b h _
    exact video_stop_not_recording _ _ _ ((video_arm_keeps_recording cfg env s sid dest di fn now iso).trans h)

/-- Witness for C5: concrete arms on fresh sessions followed by finalize. -/
theorem C5_finalize_after_arm_fails_witness :
    (AudioRecorder.stop_recording
        (AudioRecorder.start_recording ⟨true, 1, 44100, 8, "_audio"⟩ ⟨true, true, 2, 44100, true, true⟩
          AudioRecorder.init "s1" "out" (some 3) true none "T").2.1 "T2" true
      = (false, (AudioRecorder.start_recording ⟨true, 1, 44100, 8, "_audio"⟩ ⟨true, true, 2, 44100, true, true⟩
          AudioRecorder.init "s1" "out" (some 3) true none "T").2.1, []))
    ∧ (VideoRecorder.stop_recording
        (VideoRecorder.start_recording ⟨24, "_video"⟩ ⟨true, 0, false⟩
          VideoRecorder.init "s1" "out" (some 0) true none "T" "I").2.1 "T2" true
      = (false, (VideoRecorder.start_recording ⟨24, "_video"⟩ ⟨true, 0, false⟩
          VideoRecorder.init "s1" "out" (some 0) true none "T" "I").2.1, [])) :=
  ⟨C5_finalize_after_arm_fails.1 _ _ _ _ _ _ _ _ _ _ rfl (by decide),
   C5_finalize_after_arm_fails.2 _ _ _ _ _ _ _ _ _ _ _ rfl (by decide)⟩

/-- C4: a `stop_recording` on a video session in the Recording state always
succeeds: it clears the recording and thread flags (Idle), releases the
writer, releases the device handle unless a preview is active, publishes
exactly one video-stop marker, and its entire outcome is independent of
whether the capture loop exited within the `videoJoinTimeout = 5` join. -/
theorem C4_video_finalize (s : VideoRecorder.State) (now : String) (b : Bool)
    (h : s.recording = true) :
    (VideoRecorder.stop_recording s now b).1 = true
      ∧ (VideoRecorder.stop_recording s now b).2.1.recording = false
      ∧ (VideoRecorder.stop_recording s now b).2.1.thread_active = false
      ∧ (VideoRecorder.stop_recording s now b).2.1.video_writer = false
      ∧ (s.show_preview = false → (VideoRecorder.stop_recording s now b).2.1.video_capture = none)
      ∧ (VideoRecorder.stop_recording s now b).2.2 = [Marker.videoStop s.video_filename now]
      ∧ (∀ b', VideoRecorder.stop_recording s now b = VideoRecorder.stop_recording s now b')
      ∧ VideoRecorder.videoJoinTimeout = 5 := by
  refine ⟨?_, ?_, ?_, ?_, ?_, ?_, fun b' => rfl, rfl⟩ <;>
    · simp only [VideoRecorder.stop_recording, h]
      split_ifs <;> simp_all <;> cases hc : s.video_capture <;> simp_all

/-- Witness for C4: a concrete recording session whose capture loop missed
the join deadline. -/
theorem C4_video_finalize_witness :
    (VideoRecorder.stop_recording
        ⟨true, true, some ⟨true⟩, true, some "out/v.mp4", some 24, false, false⟩ "T" false).1 = true
      ∧ (VideoRecorder.stop_recording
        ⟨true, true, some ⟨true⟩, true, some "out/v.mp4", some 24, false, false⟩ "T" false).2.1.recording = false
      ∧ (VideoRecorder.stop_recording
        ⟨true, true, some ⟨true⟩, true, some "out/v.mp4", some 24, false, false⟩ "T" false).2.1.thread_active = false
      ∧ (VideoRecorder.stop_recording
        ⟨true, true, some ⟨true⟩, true, some "out/v.mp4", some 24, false, false⟩ "T" false).2.1.video_writer = false
      ∧ ((false : Bool) = false → (VideoRecorder.stop_recording
        ⟨true, true, some ⟨true⟩, true, some "out/v.mp4", some 24, false, false⟩ "T" false).2.1.video_capture = none)
      ∧ (VideoRecorder.stop_recording
        ⟨true, true, some ⟨true⟩, true, some "out/v.mp4", some 24, false, false⟩ "T" false).2.2
          = [Marker.videoStop (some "out/v.mp4") "T"]
      ∧ (∀ b', VideoRecorder.stop_recording
          ⟨true, true, some ⟨true⟩, true, some "out/v.mp4", some 24, false, false⟩ "T" false
        = VideoRecorder.stop_recording
          ⟨true, true, some ⟨true⟩, true, some "out/v.mp4", some 24, false, false⟩ "T" b')
      ∧ VideoRecorder.videoJoinTimeout = 5 :=
  C4_video_finalize ⟨true, true, some ⟨true⟩, true, some "out/v.mp4", some 24, false, false⟩ "T" false rfl

set_option maxHeartbeats 1600000 in
/-- A `start_recording` call on a non-recording audio session that returns
failure leaves the flag cleared, the instance terminated, and no open stream
held (the makedirs path leaves a dead stream on the attribute; the other
failure paths leave the attribute untouched). -/
theorem audio_start_fail_state
    (cfg : AudioRecorder.Config) (env : AudioRecorder.Env) (s : AudioRecorder.State)
    (sid dest : String) (di : Option Nat) (pre : Bool) (fn : Option String) (now : String)
    (hr : s.recording = false)
    (hs : ∀ st, s.audio_stream = some st → st.isOpen = false)
    (hfail : (AudioRecorder.start_recording cfg env s sid dest di pre fn now).1
      = AudioRecorder.PreStartResult.failed) :
    (AudioRecorder.start_recording cfg env s sid dest di pre fn now).2.1.recording = false
      ∧ (AudioRecorder.start_recording cfg env s sid dest di pre fn now).2.1.audio_p = false
      ∧ ∀ st, (AudioRecorder.start_recording cfg env s sid dest di pre fn now).2.1.audio_stream
          = some st → st.isOpen = false := by
  simp only [AudioRecorder.start_recording, hr] at hfail ⊢
  split_ifs at hfail ⊢ <;>
    solve
      | exact ⟨hr, rfl, fun st hst => hs st hst⟩
      | (refine ⟨hr, rfl, ?_⟩
         intro st hst
         simp only [Option.some.injEq] at hst
         simp [← hst])
      | simp_all

/-- A `start_recording` call that escapes with the uncaught invalid-index
lookup error leaves the session exactly as it was, except that the freshly
created PyAudio instance is still held (un-terminated); no stream or device
was acquired. -/
theorem audio_start_raised_state
    (cfg : AudioRecorder.Config) (env : AudioRecorder.Env) (s : AudioRecorder.State)
    (sid dest : String) (di : Option Nat) (pre : Bool) (fn : Option String) (now : String)
    (hraise : (AudioRecorder.start_recording cfg env s sid dest di pre fn now).1
      = AudioRecorder.PreStartResult.raised) :
    (AudioRecorder.start_recording cfg env s sid dest di pre fn now).2.1
      = { s with audio_p := true } := by
  simp only [AudioRecorder.start_recording] at hraise ⊢
  split_ifs at hraise ⊢ <;> simp_all

/-- A `start_recording` call on a non-recording audio session succeeds when
the device resolves (with a valid index when explicit), the stream opens,
and the destination directory can be created. -/
theorem audio_start_success
    (cfg : AudioRecorder.Config) (env : AudioRecorder.Env) (s : AudioRecorder.State)
    (sid dest : String) (di : Option Nat) (pre : Bool) (fn : Option String) (now : String)
    (hr : s.recording = false) (hfound : env.deviceFound = true) (hopen : env.openOk = true)
    (hidx : env.indexValid = true) (hmk : env.makedirsOk = true) :
    (AudioRecorder.start_recording cfg env s sid dest di pre fn now).1
      = AudioRecorder.PreStartResult.ok := by
  simp only [AudioRecorder.start_recording, hr, hfound, hopen, hidx, hmk]
  split_ifs <;> simp_all

/-- A `start_recording` call on a non-recording video session that fails
leaves the `recording` and `thread_active` flags as they were and holds no
open capture. -/
theorem video_start_fail_state
    (cfg : VideoRecorder.Config) (env : VideoRecorder.Env) (s : VideoRecorder.State)
    (sid dest : String) (di : Option Nat) (pre : Bool) (fn : Option String) (now iso : String)
    (hr : s.recording = false)
    (hfail : (VideoRecorder.start_recording cfg env s sid dest di pre fn now iso).1 = false) :
    (VideoRecorder.start_recording cfg env s sid dest di pre fn now iso).2.1.recording = false
      ∧ (VideoRecorder.start_recording cfg env s sid dest di pre fn now iso).2.1.thread_active
          = s.thread_active
      ∧ ∀ c, (VideoRecorder.start_recording cfg env s sid dest di pre fn now iso).2.1.video_capture
          = some c → c.opened = false := by
  simp only [VideoRecorder.start_recording, hr] at hfail ⊢
  cases hcap : s.video_capture with
  | none => simp only [hcap] at hfail ⊢; split_ifs at hfail ⊢ <;> simp_all
  | some c =>
      cases hco : c.opened <;>
        · simp only [hcap, hco] at hfail ⊢
          split_ifs at hfail ⊢ <;> simp_all

/-- A `start_recording` call on a non-recording video session holding no
open capture succeeds when the device opens and setup does not raise. -/
theorem video_start_success
    (cfg : VideoRecorder.Config) (env : VideoRecorder.Env) (s : VideoRecorder.State)
    (sid dest : String) (di : Option Nat) (pre : Bool) (fn : Option String) (now iso : String)
    (hr : s.recording = false) (hc : ∀ c, s.video_capture = some c → c.opened = false)
    (hopen : env.openOk = true) (hraise : env.setupRaises = false) :
    (VideoRecorder.start_recording cfg env s sid dest di pre fn now iso).1 = true := by
  simp only [VideoRecorder.start_recording, hr, hopen, hraise]
  cases hcap : s.video_capture with
  | none => split_ifs <;> simp_all
  | some c =>
      have hco : c.opened = false := hc c hcap
      simp only [hcap, hco]
      split_ifs <;> simp_all

/-- C6: a failing `arm` (device not found, device open failure, or an
internal error — the line-221 makedirs failure after the stream open) on a
session that is Idle with its resources released leaves it Idle with its
device resources released (instance terminated, no open stream — terminate
closes the just-opened stream on the makedirs path), and an immediate retry
of arm with a cooperating device succeeds.  An arm that escapes with the
uncaught invalid-index lookup error (line 163) acquires no stream or device
— only the fresh PyAudio instance is left un-terminated — and a retry still
succeeds.  A failing `beginStreaming` (`start_pre_initialized`) changes
nothing at all.  Stated for both modalities. -/
theorem C6_failure_leaves_idle :
    (∀ (cfg : AudioRecorder.Config) (env : AudioRecorder.Env) (s : AudioRecorder.State)
        (sid dest : String) (di : Option Nat) (pre : Bool) (fn : Option String) (now : String),
      AudioRecorder.idleReleased s →
      (AudioRecorder.start_recording cfg env s sid dest di pre fn now).1
        = AudioRecorder.PreStartResult.failed →
      AudioRecorder.idleReleased (AudioRecorder.start_recording cfg env s sid dest di pre fn now).2.1
        ∧ ∀ env2 : AudioRecorder.Env, env2.deviceFound = true → env2.openOk = true →
            env2.indexValid = true → env2.makedirsOk = true →
            (AudioRecorder.start_recording cfg env2
              (AudioRecorder.start_recording cfg env s sid dest di pre fn now).2.1
              sid dest di pre fn now).1 = AudioRecorder.PreStartResult.ok)
    ∧ (∀ (cfg : AudioRecorder.Config) (env : AudioRecorder.Env) (s : AudioRecorder.State)
        (sid dest : String) (di : Option Nat) (pre : Bool) (fn : Option String) (now : String),
      AudioRecorder.idleReleased s →
      (AudioRecorder.start_recording cfg env s sid dest di pre fn now).1
        = AudioRecorder.PreStartResult.raised →
      (AudioRecorder.start_recording cfg env s sid dest di pre fn now).2.1
          = { s with audio_p := true }
        ∧ ∀ env2 : AudioRecorder.Env, env2.deviceFound = true → env2.openOk = true →
            env2.indexValid = true → env2.makedirsOk = true →
            (AudioRecorder.start_recording cfg env2
              (AudioRecorder.start_recording cfg env s sid dest di pre fn now).2.1
              sid dest di pre fn now).1 = AudioRecorder.PreStartResult.ok)
    ∧ (∀ (s : AudioRecorder.State) (sid now iso : String),
        (AudioRecorder.start_pre_initialized s sid now iso).1 = AudioRecorder.PreStartResult.failed →
        (AudioRecorder.start_pre_initialized s sid now iso).2.1 = s)
    ∧ (∀ (cfg : VideoRecorder.Config) (env : VideoRecorder.Env) (s : VideoRecorder.State)
        (sid dest : String) (di : Option Nat) (pre : Bool) (fn : Option String) (now iso : String),
      VideoRecorder.idleReleased s →
      (VideoRecorder.start_recording cfg env s sid dest di pre fn now iso).1 = false →
      VideoRecorder.idleReleased (VideoRecorder.start_recording cfg env s sid dest di pre fn now iso).2.1
        ∧ ∀ env2 : VideoRecorder.Env, env2.openOk = true → env2.setupRaises = false →
            (VideoRecorder.start_recording cfg env2
              (VideoRecorder.start_recording cfg env s sid dest di pre fn now iso).2.1
              sid dest di pre fn now iso).1 = true)
    ∧ (∀ (s : VideoRecorder.State) (sid now iso : String),
        (VideoRecorder.start_pre_initialized s sid now iso).1 = false →
        (VideoRecorder.start_pre_initialized s sid now iso).2.1 = s) := by
  refine ⟨?_, ?_, ?_, ?_, ?_⟩
  · intro cfg env s sid dest di pre fn now hidle hfail
    obtain ⟨hr, hp, hs⟩ := hidle
    obtain ⟨h1, h2, h3⟩ := audio_start_fail_state cfg env s sid dest di pre fn now hr hs hfail
    refine ⟨⟨h1, h2, h3⟩, ?_⟩
    intro env2 hf ho hi hm
    exact audio_start_success cfg env2 _ sid dest di pre fn now h1 hf ho hi hm
  · intro cfg env s sid dest di pre fn now hidle hraise
    obtain ⟨hr, hp, hs⟩ := hidle
    have heq := audio_start_raised_state cfg env s sid dest di pre fn now hraise
    refine ⟨heq, ?_⟩
    intro env2 hf ho hi hm
    rw [heq]
    exact audio_start_success cfg env2 _ sid dest di pre fn now hr hf ho hi hm
  · intro s sid now iso h
    unfold AudioRecorder.start_pre_initialized at h ⊢
    cases hs : s.audio_stream <;> simp [hs] at h ⊢
    split_ifs at h <;> simp_all
  · intro cfg env s sid dest di pre fn now iso hidle hfail
    obtain ⟨hr, ht, hc⟩ := hidle
    obtain ⟨h1, h2, h3⟩ := video_start_fail_state cfg env s sid dest di pre fn now iso hr hfail
    refine ⟨⟨h1, h2.trans ht, h3⟩, ?_⟩
    intro env2 ho hb
    exact video_start_success cfg env2 _ sid dest di pre fn now iso h1 h3 ho hb
  · intro s sid now iso h
    unfold VideoRecorder.start_pre_initialized at h ⊢
    cases hs : s.video_capture <;> simp [hs] at h ⊢

/-- Witness for C6: a concrete audio arm failing at makedirs after the
stream opened, a concrete invalid-index audio arm escape, and a concrete
camera-open-failure video arm, each from a fresh session and each followed
by a successful retry; plus failing `start_pre_initialized` calls on fresh
sessions. -/
theorem C6_failure_leaves_idle_witness :
    (AudioRecorder.idleReleased
        (AudioRecorder.start_recording ⟨true, 1, 44100, 8, "_audio"⟩ ⟨true, true, 2, 44100, true, false⟩
          AudioRecorder.init "s6" "out" none true none "T").2.1
      ∧ (AudioRecorder.start_recording ⟨true, 1, 44100, 8, "_audio"⟩ ⟨true, true, 2, 44100, true, true⟩
          (AudioRecorder.start_recording ⟨true, 1, 44100, 8, "_audio"⟩ ⟨true, true, 2, 44100, true, false⟩
            AudioRecorder.init "s6" "out" none true none "T").2.1
          "s6" "out" none true none "T").1 = AudioRecorder.PreStartResult.ok)
    ∧ ((AudioRecorder.start_recording ⟨true, 1, 44100, 8, "_audio"⟩ ⟨true, true, 2, 44100, false, true⟩
          AudioRecorder.init "s6" "out" (some 3) true none "T").2.1
        = { AudioRecorder.init with audio_p := true }
      ∧ (AudioRecorder.start_recording ⟨true, 1, 44100, 8, "_audio"⟩ ⟨true, true, 2, 44100, true, true⟩
          (AudioRecorder.start_recording ⟨true, 1, 44100, 8, "_audio"⟩ ⟨true, true, 2, 44100, false, true⟩
            AudioRecorder.init "s6" "out" (some 3) true none "T").2.1
          "s6" "out" (some 3) true none "T").1 = AudioRecorder.PreStartResult.ok)
    ∧ (AudioRecorder.start_pre_initialized AudioRecorder.init "s6" "T" "I").2.1 = AudioRecorder.init
    ∧ (VideoRecorder.idleReleased
        (VideoRecorder.start_recording ⟨24, "_video"⟩ ⟨false, 0, false⟩
          VideoRecorder.init "s6" "out" none true none "T" "I").2.1
      ∧ (VideoRecorder.start_recording ⟨24, "_video"⟩ ⟨true, 0, false⟩
          (VideoRecorder.start_recording ⟨24, "_video"⟩ ⟨false, 0, false⟩
            VideoRecorder.init "s6" "out" none true none "T" "I").2.1
          "s6" "out" none true none "T" "I").1 = true)
    ∧ (VideoRecorder.start_pre_initialized VideoRecorder.init "s6" "T" "I").2.1 = VideoRecorder.init :=
  ⟨⟨(C6_failure_leaves_idle.1 ⟨true, 1, 44100, 8, "_audio"⟩ ⟨true, true, 2, 44100, true, false⟩
        AudioRecorder.init "s6" "out" none true none "T"
        ⟨rfl, rfl, fun st hst => by simp [AudioRecorder.init] at hst⟩ (by decide)).1,
    (C6_failure_leaves_idle.1 ⟨true, 1, 44100, 8, "_audio"⟩ ⟨true, true, 2, 44100, true, false⟩
        AudioRecorder.init "s6" "out" none true none "T"
        ⟨rfl, rfl, fun st hst => by simp [AudioRecorder.init] at hst⟩ (by decide)).2
      ⟨true, true, 2, 44100, true, true⟩ rfl rfl rfl rfl⟩,
   ⟨(C6_failure_leaves_idle.2.1 ⟨true, 1, 44100, 8, "_audio"⟩ ⟨true, true, 2, 44100, false, true⟩
        AudioRecorder.init "s6" "out" (some 3) true none "T"
        ⟨rfl, rfl, fun st hst => by simp [AudioRecorder.init] at hst⟩ (by decide)).1,
    (C6_failure_leaves_idle.2.1 ⟨true, 1, 44100, 8, "_audio"⟩ ⟨true, true, 2, 44100, false, true⟩
        AudioRecorder.init "s6" "out" (some 3) true none "T"
        ⟨rfl, rfl, fun st hst => by simp [AudioRecorder.init] at hst⟩ (by decide)).2
      ⟨true, true, 2, 44100, true, true⟩ rfl rfl rfl rfl⟩,
   C6_failure_leaves_idle.2.2.1 AudioRecorder.init "s6" "T" "I" (by decide),
   ⟨(C6_failure_leaves_idle.2.2.2.1 ⟨24, "_video"⟩ ⟨false, 0, false⟩
        VideoRecorder.init "s6" "out" none true none "T" "I"
        ⟨rfl, rfl, fun c hc => by simp [VideoRecorder.init] at hc⟩ (by decide)).1,
    (C6_failure_leaves_idle.2.2.2.1 ⟨24, "_video"⟩ ⟨false, 0, false⟩
        VideoRecorder.init "s6" "out" none true none "T" "I"
        ⟨rfl, rfl, fun c hc => by simp [VideoRecorder.init] at hc⟩ (by decide)).2
      ⟨true, 0, false⟩ rfl rfl⟩,
   C6_failure_leaves_idle.2.2.2.2 VideoRecorder.init "s6" "T" "I" (by decide)⟩

/-- Counterexample to C2: on a freshly armed video session, two consecutive
`start_pre_initialized` calls without an intervening `stop_recording` both
return `True` — the second call is not rejected with a state violation. -/
theorem C2_counterexample :
    (VideoRecorder.start_pre_initialized
        (VideoRecorder.start_recording ⟨24, "_video"⟩ ⟨true, 0, false⟩
          VideoRecorder.init "s2" "out" none true none "T0" "I0").2.1
        "s2" "T1" "I1").1 = true
      ∧ (VideoRecorder.start_pre_initialized
          (VideoRecorder.start_pre_initialized
            (VideoRecorder.start_recording ⟨24, "_video"⟩ ⟨true, 0, false⟩
              VideoRecorder.init "s2" "out" none true none "T0" "I0").2.1
            "s2" "T1" "I1").2.1
          "s2" "T2" "I2").1 = true := by
  decide

/-- C2 as amended: `start_pre_initialized` checks only that a handle object
exists, not that the session is Armed — the video call succeeds exactly when
`video_capture` is not `None` (so it succeeds again from Recording), and the
audio call returns its failure value exactly when `audio_stream` is `None`
(any held stream, closed or already started, is accepted and handed to
`start_stream`). -/
theorem C2_beginStreaming_handle_check :
    (∀ (s : VideoRecorder.State) (sid now iso : String),
      (VideoRecorder.start_pre_initialized s sid now iso).1 = true
        ↔ s.video_capture.isSome = true)
    ∧ (∀ (s : AudioRecorder.State) (sid now iso : String),
      (AudioRecorder.start_pre_initialized s sid now iso).1 = AudioRecorder.PreStartResult.failed
        ↔ s.audio_stream = none) := by
  constructor
  · intro s sid now iso
    unfold VideoRecorder.start_pre_initialized
    cases hs : s.video_capture <;> simp [hs]
  · intro s sid now iso
    unfold AudioRecorder.start_pre_initialized
    cases hs : s.audio_stream <;> simp [hs]
    split_ifs <;> simp_all

/-- A successful audio `start_pre_initialized` sets the recording flag. -/
theorem audio_startPre_ok_rec (s : AudioRecorder.State) (sid now iso : String)
    (h : (AudioRecorder.start_pre_initialized s sid now iso).1 = AudioRecorder.PreStartResult.ok) :
    (AudioRecorder.start_pre_initialized s sid now iso).2.1.recording = true := by
  unfold AudioRecorder.start_pre_initialized at h ⊢
  cases hs : s.audio_stream <;> simp [hs] at h ⊢
  split_ifs at h ⊢ <;> simp_all

/-- An audio `start_pre_initialized` that does not return success leaves the
state unchanged. -/
theorem audio_startPre_not_ok (s : AudioRecorder.State) (sid now iso : String)
    (h : (AudioRecorder.start_pre_initialized s sid now iso).1 ≠ AudioRecorder.PreStartResult.ok) :
    (AudioRecorder.start_pre_initialized s sid now iso).2.1 = s := by
  unfold AudioRecorder.start_pre_initialized at h ⊢
  cases hs : s.audio_stream <;> simp [hs] at h ⊢
  split_ifs at h ⊢ <;> simp_all

/-- A successful video `start_pre_initialized` sets the recording flag. -/
theorem video_startPre_true_rec (s : VideoRecorder.State) (sid now iso : String)
    (h : (VideoRecorder.start_pre_initialized s sid now iso).1 = true) :
    (VideoRecorder.start_pre_initialized s sid now iso).2.1.recording = true := by
  unfold VideoRecorder.start_pre_initialized at h ⊢
  cases hs : s.video_capture <;> simp [hs] at h ⊢

/-- A failing video `start_pre_initialized` leaves the state unchanged. -/
theorem video_startPre_false (s : VideoRecorder.State) (sid now iso : String)
    (h : (VideoRecorder.start_pre_initialized s sid now iso).1 = false) :
    (VideoRecorder.start_pre_initialized s sid now iso).2.1 = s := by
  unfold VideoRecorder.start_pre_initialized at h ⊢
  cases hs : s.video_capture <;> simp [hs] at h ⊢

/-- Counterexample to C1: from fresh sessions with a working audio device
and a camera that fails to open, the video arm performed by the joint start
returns `False`, yet `start_both_recordings` returns `True` and both
sessions end up with their recording flags set — a session begins streaming
although an arm call failed. -/
theorem C1_counterexample :
    (VideoRecorder.start_recording ⟨24, "_video"⟩ ⟨false, 0, false⟩ VideoRecorder.init
        "s1" "out" none true (some "out/s1_video_T.mp4") "T" "IV").1 = false
      ∧ (RecorderCore.start_both_recordings ⟨"_audio", "_video"⟩ ⟨true, 1, 44100, 8, "_audio"⟩
          ⟨24, "_video"⟩ ⟨true, true, 2, 44100, true, true⟩ ⟨false, 0, false⟩ RecorderCore.init
          "s1" "out" none none "T" "IA" "IV").1 = true
      ∧ (RecorderCore.start_both_recordings ⟨"_audio", "_video"⟩ ⟨true, 1, 44100, 8, "_audio"⟩
          ⟨24, "_video"⟩ ⟨true, true, 2, 44100, true, true⟩ ⟨false, 0, false⟩ RecorderCore.init
          "s1" "out" none none "T" "IA" "IV").2.1.audio.recording = true
      ∧ (RecorderCore.start_both_recordings ⟨"_audio", "_video"⟩ ⟨true, 1, 44100, 8, "_audio"⟩
          ⟨24, "_video"⟩ ⟨true, true, 2, 44100, true, true⟩ ⟨false, 0, false⟩ RecorderCore.init
          "s1" "out" none none "T" "IA" "IV").2.1.video.recording = true := by
  decide

/-- C1 as amended: when neither session is already Recording, the joint
start ignores the two arm results; it returns success exactly when both
sessions end up Recording; a successful audio `beginStreaming` always leaves
the audio session Recording; a successful video `beginStreaming` (reached
whenever audio's call returns rather than raising) always leaves the video
session Recording; and in the one realizable exactly-one-fails case — audio
`beginStreaming` returns failure while video's succeeds — the call returns
failure with the video session left Recording and no rollback. -/
theorem C1_joint_start_result (ccfg : RecorderCore.Config) (acfg : AudioRecorder.Config)
    (vcfg : VideoRecorder.Config) (envA : AudioRecorder.Env) (envV : VideoRecorder.Env)
    (sys : RecorderCore.Sys) (sid dest : String) (ai vi : Option Nat) (now isoA isoV : String)
    (ha : sys.audio.recording = false) (hv : sys.video.recording = false) :
    ((RecorderCore.start_both_recordings ccfg acfg vcfg envA envV sys sid dest ai vi now isoA isoV).1
      = ((RecorderCore.start_both_recordings ccfg acfg vcfg envA envV sys sid dest ai vi now isoA isoV).2.1.audio.recording
        && (RecorderCore.start_both_recordings ccfg acfg vcfg envA envV sys sid dest ai vi now isoA isoV).2.1.video.recording))
    ∧ ((AudioRecorder.start_recording acfg envA sys.audio sid dest ai true
          (some (pathJoin dest (sid ++ ccfg.audio_filename_suffix ++ "_" ++ now ++ ".wav"))) now).1
          ≠ AudioRecorder.PreStartResult.raised →
        (AudioRecorder.start_pre_initialized
          (AudioRecorder.start_recording acfg envA sys.audio sid dest ai true
            (some (pathJoin dest (sid ++ ccfg.audio_filename_suffix ++ "_" ++ now ++ ".wav"))) now).2.1
          sid now isoA).1 = AudioRecorder.PreStartResult.ok →
        (RecorderCore.start_both_recordings ccfg acfg vcfg envA envV sys sid dest ai vi now isoA isoV).2.1.audio.recording = true)
    ∧ ((AudioRecorder.start_recording acfg envA sys.audio sid dest ai true
          (some (pathJoin dest (sid ++ ccfg.audio_filename_suffix ++ "_" ++ now ++ ".wav"))) now).1
          ≠ AudioRecorder.PreStartResult.raised →
        (AudioRecorder.start_pre_initialized
          (AudioRecorder.start_recording acfg envA sys.audio sid dest ai true
            (some (pathJoin dest (sid ++ ccfg.audio_filename_suffix ++ "_" ++ now ++ ".wav"))) now).2.1
          sid now isoA).1 ≠ AudioRecorder.PreStartResult.raised →
        (VideoRecorder.start_pre_initialized
          (VideoRecorder.start_recording vcfg envV sys.video sid dest vi true
            (some (pathJoin dest (sid ++ ccfg.video_filename_suffix ++ "_" ++ now ++ ".mp4"))) now isoV).2.1
          sid now isoV).1 = true →
        (RecorderCore.start_both_recordings ccfg acfg vcfg envA envV sys sid dest ai vi now isoA isoV).2.1.video.recording = true)
    ∧ ((AudioRecorder.start_recording acfg envA sys.audio sid dest ai true
          (some (pathJoin dest (sid ++ ccfg.audio_filename_suffix ++ "_" ++ now ++ ".wav"))) now).1
          ≠ AudioRecorder.PreStartResult.raised →
        (AudioRecorder.start_pre_initialized
          (AudioRecorder.start_recording acfg envA sys.audio sid dest ai true
            (some (pathJoin dest (sid ++ ccfg.audio_filename_suffix ++ "_" ++ now ++ ".wav"))) now).2.1
          sid now isoA).1 = AudioRecorder.PreStartResult.failed →
        (VideoRecorder.start_pre_initialized
          (VideoRecorder.start_recording vcfg envV sys.video sid dest vi true
            (some (pathJoin dest (sid ++ ccfg.video_filename_suffix ++ "_" ++ now ++ ".mp4"))) now isoV).2.1
          sid now isoV).1 = true →
        (RecorderCore.start_both_recordings ccfg acfg vcfg envA envV sys sid dest ai vi now isoA isoV).1 = false
          ∧ (RecorderCore.start_both_recordings ccfg acfg vcfg envA envV sys sid dest ai vi now isoA isoV).2.1.video.recording = true
          ∧ (RecorderCore.start_both_recordings ccfg acfg vcfg envA envV sys sid dest ai vi now isoA isoV).2.1.audio.recording = false) := by
  unfold RecorderCore.start_both_recordings
  simp only [ha, hv, Bool.or_self, Bool.false_or, if_false]
  have haRec := audio_arm_keeps_recording acfg envA sys.audio sid dest ai
    (some (pathJoin dest (sid ++ ccfg.audio_filename_suffix ++ "_" ++ now ++ ".wav"))) now
  rw [ha] at haRec
  have hvRec := video_arm_keeps_recording vcfg envV sys.video sid dest vi
    (some (pathJoin dest (sid ++ ccfg.video_filename_suffix ++ "_" ++ now ++ ".mp4"))) now isoV
  rw [hv] at hvRec
  rcases hra : AudioRecorder.start_recording acfg envA sys.audio sid dest ai true
      (some (pathJoin dest (sid ++ ccfg.audio_filename_suffix ++ "_" ++ now ++ ".wav"))) now
    with ⟨ar, a1, am⟩
  rw [hra] at haRec
  replace haRec : a1.recording = false := haRec
  simp only [hra]
  cases ar with
  | raised =>
      refine ⟨by simp [haRec], ?_, ?_, ?_⟩
      · intro hne _
        exact absurd rfl hne
      · intro hne _ _
        exact absurd rfl hne
      · intro hne _ _
        exact absurd rfl hne
  | ok =>
      rcases hpre : AudioRecorder.start_pre_initialized a1 sid now isoA with ⟨r, a2, m3⟩
      have hpre1 : (AudioRecorder.start_pre_initialized a1 sid now isoA).1 = r := by rw [hpre]
      have hpre2 : (AudioRecorder.start_pre_initialized a1 sid now isoA).2.1 = a2 := by rw [hpre]
      simp only [hpre]
      cases r with
      | ok =>
          have ha2 : a2.recording = true := by
            rw [← hpre2]
            exact audio_startPre_ok_rec _ _ _ _ hpre1
          refine ⟨?_, fun _ _ => ha2, ?_, ?_⟩
          · cases hvok : (VideoRecorder.start_pre_initialized
                (VideoRecorder.start_recording vcfg envV sys.video sid dest vi true
                  (some (pathJoin dest (sid ++ ccfg.video_filename_suffix ++ "_" ++ now ++ ".mp4"))) now isoV).2.1
                sid now isoV).1 with
            | true =>
                have := video_startPre_true_rec _ sid now isoV hvok
                simp_all
            | false =>
                have := video_startPre_false _ sid now isoV hvok
                simp_all
          · intro _ _ hpv
            exact video_startPre_true_rec _ sid now isoV hpv
          · intro _ hbad _
            exact absurd hbad (by decide)
      | failed =>
          have ha2 : a2.recording = false := by
            rw [← hpre2, audio_startPre_not_ok _ _ _ _ (by simp [hpre1])]
            exact haRec
          refine ⟨?_, ?_, ?_, ?_⟩
          · cases hvok : (VideoRecorder.start_pre_initialized
                (VideoRecorder.start_recording vcfg envV sys.video sid dest vi true
                  (some (pathJoin dest (sid ++ ccfg.video_filename_suffix ++ "_" ++ now ++ ".mp4"))) now isoV).2.1
                sid now isoV).1 with
            | true =>
                have := video_startPre_true_rec _ sid now isoV hvok
                simp_all
            | false =>
                have := video_startPre_false _ sid now isoV hvok
                simp_all
          · intro _ hbad
            exact absurd hbad (by decide)
          · intro _ _ hpv
            exact video_startPre_true_rec _ sid now isoV hpv
          · intro _ _ hpv
            exact ⟨by simp, video_startPre_true_rec _ sid now isoV hpv, ha2⟩
      | raised =>
          have ha2 : a2.recording = false := by
            rw [← hpre2, audio_startPre_not_ok _ _ _ _ (by simp [hpre1])]
            exact haRec
          refine ⟨by simp [ha2, hvRec], ?_, ?_, ?_⟩
          · intro _ hbad
            exact absurd hbad (by decide)
          · intro _ hne _
            exact absurd rfl hne
          · intro _ hbad _
            exact absurd hbad (by decide)
  | failed =>
      rcases hpre : AudioRecorder.start_pre_initialized a1 sid now isoA with ⟨r, a2, m3⟩
      have hpre1 : (AudioRecorder.start_pre_initialized a1 sid now isoA).1 = r := by rw [hpre]
      have hpre2 : (AudioRecorder.start_pre_initialized a1 sid now isoA).2.1 = a2 := by rw [hpre]
      simp only [hpre]
      cases r with
      | ok =>
          have ha2 : a2.recording = true := by
            rw [← hpre2]
            exact audio_startPre_ok_rec _ _ _ _ hpre1
          refine ⟨?_, fun _ _ => ha2, ?_, ?_⟩
          · cases hvok : (VideoRecorder.start_pre_initialized
                (VideoRecorder.start_recording vcfg envV sys.video sid dest vi true
                  (some (pathJoin dest (sid ++ ccfg.video_filename_suffix ++ "_" ++ now ++ ".mp4"))) now isoV).2.1
                sid now isoV).1 with
            | true =>
                have := video_startPre_true_rec _ sid now isoV hvok
                simp_all
            | false =>
                have := video_startPre_false _ sid now isoV hvok
                simp_all
          · intro _ _ hpv
            exact video_startPre_true_rec _ sid now isoV hpv
          · intro _ hbad _
            exact absurd hbad (by decide)
      | failed =>
          have ha2 : a2.recording = false := by
            rw [← hpre2, audio_startPre_not_ok _ _ _ _ (by simp [hpre1])]
            exact haRec
          refine ⟨?_, ?_, ?_, ?_⟩
          · cases hvok : (VideoRecorder.start_pre_initialized
                (VideoRecorder.start_recording vcfg envV sys.video sid dest vi true
                  (some (pathJoin dest (sid ++ ccfg.video_filename_suffix ++ "_" ++ now ++ ".mp4"))) now isoV).2.1
                sid now isoV).1 with
            | true =>
                have := video_startPre_true_rec _ sid now isoV hvok
                simp_all
            | false =>
                have := video_startPre_false _ sid now isoV hvok
                simp_all
          · intro _ hbad
            exact absurd hbad (by decide)
          · intro _ _ hpv
            exact video_startPre_true_rec _ sid now isoV hpv
          · intro _ _ hpv
            exact ⟨by simp, video_startPre_true_rec _ sid now isoV hpv, ha2⟩
      | raised =>
          have ha2 : a2.recording = false := by
            rw [← hpre2, audio_startPre_not_ok _ _ _ _ (by simp [hpre1])]
            exact haRec
          refine ⟨by simp [ha2, hvRec], ?_, ?_, ?_⟩
          · intro _ hbad
            exact absurd hbad (by decide)
          · intro _ hne _
            exact absurd rfl hne
          · intro _ hbad _
            exact absurd hbad (by decide)

/-- Witness for C1 at a joint start whose audio device is missing while the
camera cooperates: the call fails, the video session is left Recording (no
rollback), the audio session is not. -/
theorem C1_joint_start_result_witness :
    ((RecorderCore.start_both_recordings ⟨"_audio", "_video"⟩ ⟨true, 1, 44100, 8, "_audio"⟩
        ⟨24, "_video"⟩ ⟨false, true, 2, 44100, true, true⟩ ⟨true, 0, false⟩ RecorderCore.init
        "w1" "out" none none "T" "IA" "IV").1
      = ((RecorderCore.start_both_recordings ⟨"_audio", "_video"⟩ ⟨true, 1, 44100, 8, "_audio"⟩
          ⟨24, "_video"⟩ ⟨false, true, 2, 44100, true, true⟩ ⟨true, 0, false⟩ RecorderCore.init
          "w1" "out" none none "T" "IA" "IV").2.1.audio.recording
        && (RecorderCore.start_both_recordings ⟨"_audio", "_video"⟩ ⟨true, 1, 44100, 8, "_audio"⟩
          ⟨24, "_video"⟩ ⟨false, true, 2, 44100, true, true⟩ ⟨true, 0, false⟩ RecorderCore.init
          "w1" "out" none none "T" "IA" "IV").2.1.video.recording))
    ∧ ((RecorderCore.start_both_recordings ⟨"_audio", "_video"⟩ ⟨true, 1, 44100, 8, "_audio"⟩
        ⟨24, "_video"⟩ ⟨false, true, 2, 44100, true, true⟩ ⟨true, 0, false⟩ RecorderCore.init
        "w1" "out" none none "T" "IA" "IV").1 = false
      ∧ (RecorderCore.start_both_recordings ⟨"_audio", "_video"⟩ ⟨true, 1, 44100, 8, "_audio"⟩
        ⟨24, "_video"⟩ ⟨false, true, 2, 44100, true, true⟩ ⟨true, 0, false⟩ RecorderCore.init
        "w1" "out" none none "T" "IA" "IV").2.1.video.recording = true
      ∧ (RecorderCore.start_both_recordings ⟨"_audio", "_video"⟩ ⟨true, 1, 44100, 8, "_audio"⟩
        ⟨24, "_video"⟩ ⟨false, true, 2, 44100, true, true⟩ ⟨true, 0, false⟩ RecorderCore.init
        "w1" "out" none none "T" "IA" "IV").2.1.audio.recording = false) :=
  ⟨(C1_joint_start_result ⟨"_audio", "_video"⟩ ⟨true, 1, 44100, 8, "_audio"⟩ ⟨24, "_video"⟩
      ⟨false, true, 2, 44100, true, true⟩ ⟨true, 0, false⟩ RecorderCore.init
      "w1" "out" none none "T" "IA" "IV" rfl rfl).1,
   (C1_joint_start_result ⟨"_audio", "_video"⟩ ⟨true, 1, 44100, 8, "_audio"⟩ ⟨24, "_video"⟩
      ⟨false, true, 2, 44100, true, true⟩ ⟨true, 0, false⟩ RecorderCore.init
      "w1" "out" none none "T" "IA" "IV" rfl rfl).2.2.2 (by decide) (by decide) (by decide)⟩

/-- `start_pre_initialized` never changes the audio filename. -/
theorem audio_startPre_keeps_filename (s : AudioRecorder.State) (sid now iso : String) :
    (AudioRecorder.start_pre_initialized s sid now iso).2.1.audio_filename
      = s.audio_filename := by
  unfold AudioRecorder.start_pre_initialized
  cases hs : s.audio_stream <;> simp [hs]
  split_ifs <;> rfl

/-- `start_pre_initialized` never changes the video filename. -/
theorem video_startPre_keeps_filename (s : VideoRecorder.State) (sid now iso : String) :
    (VideoRecorder.start_pre_initialized s sid now iso).2.1.video_filename
      = s.video_filename := by
  unfold VideoRecorder.start_pre_initialized
  cases hs : s.video_capture <;> simp [hs]

/-- An audio `start_pre_initialized` on a session holding no stream object
returns the failure value. -/
theorem audio_startPre_none (s : AudioRecorder.State) (sid now iso : String)
    (hs : s.audio_stream = none) :
    (AudioRecorder.start_pre_initialized s sid now iso).1
      = AudioRecorder.PreStartResult.failed := by
  unfold AudioRecorder.start_pre_initialized
  simp [hs]

/-- `stop_recording` never changes the audio filename. -/
theorem audio_stop_keeps_filename (s : AudioRecorder.State) (now : String) (w : Bool) :
    (AudioRecorder.stop_recording s now w).2.1.audio_filename = s.audio_filename := by
  cases hs : s.audio_stream <;>
    · simp only [AudioRecorder.stop_recording, hs]
      split_ifs <;> rfl

/-- `stop_recording` never changes the video filename. -/
theorem video_stop_keeps_filename (s : VideoRecorder.State) (now : String) (b : Bool) :
    (VideoRecorder.stop_recording s now b).2.1.video_filename = s.video_filename := by
  simp only [VideoRecorder.stop_recording]
  split_ifs <;> rfl

/-- An audio arm (`pre_initialize=True`, explicit filename) from a session
holding no stream either leaves the stream absent and the filename untouched
(the failing paths) or installs an open, stopped stream and records exactly
the supplied filename. -/
theorem audio_arm_stream_cases
    (cfg : AudioRecorder.Config) (env : AudioRecorder.Env) (s : AudioRecorder.State)
    (sid dest : String) (di : Option Nat) (f now : String)
    (hr : s.recording = false) (hs : s.audio_stream = none) :
    ((AudioRecorder.start_recording cfg env s sid dest di true (some f) now).2.1.audio_stream = none
      ∧ (AudioRecorder.start_recording cfg env s sid dest di true (some f) now).2.1.audio_filename
        = s.audio_filename)
    ∨ ((AudioRecorder.start_recording cfg env s sid dest di true (some f) now).2.1.audio_stream
        = some ⟨false, false⟩
      ∧ (AudioRecorder.start_recording cfg env s sid dest di true (some f) now).2.1.audio_filename
        = s.audio_filename)
    ∨ ((AudioRecorder.start_recording cfg env s sid dest di true (some f) now).2.1.audio_stream
        = some ⟨true, false⟩
      ∧ (AudioRecorder.start_recording cfg env s sid dest di true (some f) now).2.1.audio_filename
        = some f) := by
  simp only [AudioRecorder.start_recording, hr]
  split_ifs <;> simp_all

/-- `start_pre_initialized` on a session whose held stream is closed raises
(start_stream on a dead stream). -/
theorem audio_startPre_closed (s : AudioRecorder.State) (sid now iso : String)
    (hs : s.audio_stream = some ⟨false, false⟩) :
    (AudioRecorder.start_pre_initialized s sid now iso).1
      = AudioRecorder.PreStartResult.raised := by
  unfold AudioRecorder.start_pre_initialized
  simp [hs]

/-- A video arm (`pre_initialize=True`, explicit filename) from an idle
session whose camera opens records exactly the supplied filename, whether or
not the later setup raises. -/
theorem video_arm_filename_openOk
    (cfg : VideoRecorder.Config) (env : VideoRecorder.Env) (s : VideoRecorder.State)
    (sid dest : String) (di : Option Nat) (f now iso : String)
    (hr : s.recording = false) (hnone : s.video_capture = none) (hopen : env.openOk = true) :
    (VideoRecorder.start_recording cfg env s sid dest di true (some f) now iso).2.1.video_filename
      = some f := by
  simp only [VideoRecorder.start_recording, hr, hnone, hopen]
  split_ifs <;> simp_all

/-- Counterexample to C7: from fresh sessions, with the camera failing to
open, the joint start still returns `True`, the audio filename is the
derived shared-timestamp name, but the video filename was never assigned —
the two sessions of the "successful" run do not carry filenames sharing the
subject id and timestamp. -/
theorem C7_counterexample :
    (RecorderCore.start_both_recordings ⟨"_audio", "_video"⟩ ⟨true, 1, 44100, 8, "_audio"⟩
        ⟨24, "_video"⟩ ⟨true, true, 2, 44100, true, true⟩ ⟨false, 0, false⟩ RecorderCore.init
        "s7" "out" none none "T7" "IA" "IV").1 = true
      ∧ (RecorderCore.start_both_recordings ⟨"_audio", "_video"⟩ ⟨true, 1, 44100, 8, "_audio"⟩
          ⟨24, "_video"⟩ ⟨true, true, 2, 44100, true, true⟩ ⟨false, 0, false⟩ RecorderCore.init
          "s7" "out" none none "T7" "IA" "IV").2.1.audio.audio_filename
        = some "out/s7_audio_T7.wav"
      ∧ (RecorderCore.start_both_recordings ⟨"_audio", "_video"⟩ ⟨true, 1, 44100, 8, "_audio"⟩
          ⟨24, "_video"⟩ ⟨true, true, 2, 44100, true, true⟩ ⟨false, 0, false⟩ RecorderCore.init
          "s7" "out" none none "T7" "IA" "IV").2.1.video.video_filename = none := by
  decide

/-- C7 as amended: when the joint start is issued on idle sessions, the
camera actually opens, and the call returns success, the two sessions carry
exactly the coordinator-derived filenames — both embedding the same subject
id and the same coarse timestamp component — and `stop_recording` on either
modality never changes a filename, so the pairing persists for the whole run
even though the sessions are stopped independently. -/
theorem C7_shared_filename_components (ccfg : RecorderCore.Config)
    (acfg : AudioRecorder.Config) (vcfg : VideoRecorder.Config)
    (envA : AudioRecorder.Env) (envV : VideoRecorder.Env) (sys : RecorderCore.Sys)
    (sid dest : String) (ai vi : Option Nat) (now isoA isoV : String)
    (ha : sys.audio.recording = false) (has : sys.audio.audio_stream = none)
    (hv : sys.video.recording = false) (hvc : sys.video.video_capture = none)
    (hopen : envV.openOk = true)
    (hro : (RecorderCore.start_both_recordings ccfg acfg vcfg envA envV sys sid dest ai vi
      now isoA isoV).1 = true) :
    (RecorderCore.start_both_recordings ccfg acfg vcfg envA envV sys sid dest ai vi
        now isoA isoV).2.1.audio.audio_filename
      = some (pathJoin dest (sid ++ ccfg.audio_filename_suffix ++ "_" ++ now ++ ".wav"))
    ∧ (RecorderCore.start_both_recordings ccfg acfg vcfg envA envV sys sid dest ai vi
        now isoA isoV).2.1.video.video_filename
      = some (pathJoin dest (sid ++ ccfg.video_filename_suffix ++ "_" ++ now ++ ".mp4"))
    ∧ (∀ (s : AudioRecorder.State) (n : String) (w : Bool),
        (AudioRecorder.stop_recording s n w).2.1.audio_filename = s.audio_filename)
    ∧ (∀ (s : VideoRecorder.State) (n : String) (b : Bool),
        (VideoRecorder.stop_recording s n b).2.1.video_filename = s.video_filename) := by
  unfold RecorderCore.start_both_recordings at hro ⊢
  simp only [ha, hv, Bool.or_self, Bool.false_or, if_false] at hro ⊢
  rcases hra : AudioRecorder.start_recording acfg envA sys.audio sid dest ai true
      (some (pathJoin dest (sid ++ ccfg.audio_filename_suffix ++ "_" ++ now ++ ".wav"))) now
    with ⟨ar, a1, am⟩
  simp only [hra] at hro ⊢
  cases ar with
  | raised => simp at hro
  | ok =>
      rcases hpre : AudioRecorder.start_pre_initialized a1 sid now isoA with ⟨r, a2, m3⟩
      have hpre1 : (AudioRecorder.start_pre_initialized a1 sid now isoA).1 = r := by rw [hpre]
      have hpre2 : (AudioRecorder.start_pre_initialized a1 sid now isoA).2.1 = a2 := by rw [hpre]
      cases r with
      | ok =>
          simp only [hpre] at hro ⊢
          refine ⟨?_, ?_, audio_stop_keeps_filename, video_stop_keeps_filename⟩
          · show a2.audio_filename
              = some (pathJoin dest (sid ++ ccfg.audio_filename_suffix ++ "_" ++ now ++ ".wav"))
            have hkeep := audio_startPre_keeps_filename a1 sid now isoA
            rw [hpre2] at hkeep
            rw [hkeep]
            have hcases := audio_arm_stream_cases acfg envA sys.audio sid dest ai
              (pathJoin dest (sid ++ ccfg.audio_filename_suffix ++ "_" ++ now ++ ".wav")) now ha has
            rw [hra] at hcases
            rcases hcases with hcase | hcase | hcase
            · exact absurd (audio_startPre_none a1 sid now isoA hcase.1)
                (by rw [hpre1]; intro hcontra; exact AudioRecorder.PreStartResult.noConfusion hcontra)
            · exact absurd (audio_startPre_closed a1 sid now isoA hcase.1)
                (by rw [hpre1]; intro hcontra; exact AudioRecorder.PreStartResult.noConfusion hcontra)
            · exact hcase.2
          · show (VideoRecorder.start_pre_initialized
                (VideoRecorder.start_recording vcfg envV sys.video sid dest vi true
                  (some (pathJoin dest (sid ++ ccfg.video_filename_suffix ++ "_" ++ now ++ ".mp4"))) now isoV).2.1
                sid now isoV).2.1.video_filename
              = some (pathJoin dest (sid ++ ccfg.video_filename_suffix ++ "_" ++ now ++ ".mp4"))
            have hkeep := video_startPre_keeps_filename
              (VideoRecorder.start_recording vcfg envV sys.video sid dest vi true
                (some (pathJoin dest (sid ++ ccfg.video_filename_suffix ++ "_" ++ now ++ ".mp4"))) now isoV).2.1
              sid now isoV
            rw [hkeep]
            exact video_arm_filename_openOk vcfg envV sys.video sid dest vi _ now isoV hv hvc hopen
      | failed => simp only [hpre] at hro; simp at hro
      | raised => simp only [hpre] at hro; simp at hro
  | failed =>
      rcases hpre : AudioRecorder.start_pre_initialized a1 sid now isoA with ⟨r, a2, m3⟩
      have hpre1 : (AudioRecorder.start_pre_initialized a1 sid now isoA).1 = r := by rw [hpre]
      have hpre2 : (AudioRecorder.start_pre_initialized a1 sid now isoA).2.1 = a2 := by rw [hpre]
      cases r with
      | ok =>
          simp only [hpre] at hro ⊢
          refine ⟨?_, ?_, audio_stop_keeps_filename, video_stop_keeps_filename⟩
          · show a2.audio_filename
              = some (pathJoin dest (sid ++ ccfg.audio_filename_suffix ++ "_" ++ now ++ ".wav"))
            have hkeep := audio_startPre_keeps_filename a1 sid now isoA
            rw [hpre2] at hkeep
            rw [hkeep]
            have hcases := audio_arm_stream_cases acfg envA sys.audio sid dest ai
              (pathJoin dest (sid ++ ccfg.audio_filename_suffix ++ "_" ++ now ++ ".wav")) now ha has
            rw [hra] at hcases
            rcases hcases with hcase | hcase | hcase
            · exact absurd (audio_startPre_none a1 sid now isoA hcase.1)
                (by rw [hpre1]; intro hcontra; exact AudioRecorder.PreStartResult.noConfusion hcontra)
            · exact absurd (audio_startPre_closed a1 sid now isoA hcase.1)
                (by rw [hpre1]; intro hcontra; exact AudioRecorder.PreStartResult.noConfusion hcontra)
            · exact hcase.2
          · show (VideoRecorder.start_pre_initialized
                (VideoRecorder.start_recording vcfg envV sys.video sid dest vi true
                  (some (pathJoin dest (sid ++ ccfg.video_filename_suffix ++ "_" ++ now ++ ".mp4"))) now isoV).2.1
                sid now isoV).2.1.video_filename
              = some (pathJoin dest (sid ++ ccfg.video_filename_suffix ++ "_" ++ now ++ ".mp4"))
            have hkeep := video_startPre_keeps_filename
              (VideoRecorder.start_recording vcfg envV sys.video sid dest vi true
                (some (pathJoin dest (sid ++ ccfg.video_filename_suffix ++ "_" ++ now ++ ".mp4"))) now isoV).2.1
              sid now isoV
            rw [hkeep]
            exact video_arm_filename_openOk vcfg envV sys.video sid dest vi _ now isoV hv hvc hopen
      | failed => simp only [hpre] at hro; simp at hro
      | raised => simp only [hpre] at hro; simp at hro

/-- Witness for C7 at a concrete successful joint start on cooperating
devices. -/
theorem C7_shared_filename_components_witness :
    (RecorderCore.start_both_recordings ⟨"_audio", "_video"⟩ ⟨true, 1, 44100, 8, "_audio"⟩
        ⟨24, "_video"⟩ ⟨true, true, 2, 44100, true, true⟩ ⟨true, 0, false⟩ RecorderCore.init
        "w7" "d" none none "TS" "IA" "IV").2.1.audio.audio_filename
      = some (pathJoin "d" ("w7" ++ "_audio" ++ "_" ++ "TS" ++ ".wav"))
    ∧ (RecorderCore.start_both_recordings ⟨"_audio", "_video"⟩ ⟨true, 1, 44100, 8, "_audio"⟩
        ⟨24, "_video"⟩ ⟨true, true, 2, 44100, true, true⟩ ⟨true, 0, false⟩ RecorderCore.init
        "w7" "d" none none "TS" "IA" "IV").2.1.video.video_filename
      = some (pathJoin "d" ("w7" ++ "_video" ++ "_" ++ "TS" ++ ".mp4"))
    ∧ (∀ (s : AudioRecorder.State) (n : String) (w : Bool),
        (AudioRecorder.stop_recording s n w).2.1.audio_filename = s.audio_filename)
    ∧ (∀ (s : VideoRecorder.State) (n : String) (b : Bool),
        (VideoRecorder.stop_recording s n b).2.1.video_filename = s.video_filename) :=
  C7_shared_filename_components ⟨"_audio", "_video"⟩ ⟨true, 1, 44100, 8, "_audio"⟩
    ⟨24, "_video"⟩ ⟨true, true, 2, 44100, true, true⟩ ⟨true, 0, false⟩ RecorderCore.init
    "w7" "d" none none "TS" "IA" "IV" rfl rfl rfl rfl rfl (by decide)

@[simp] theorem isAudioStartFor_audioStart (f fn : Option String) (sid ts : String)
    (ch sr : Option Nat) (iso : Option String) :
    isAudioStartFor f (Marker.audioStart sid fn ts ch sr iso) = (fn == f) := rfl

@[simp] theorem isAudioStartFor_audioStop (f fn : Option String) (ts : String) :
    isAudioStartFor f (Marker.audioStop fn ts) = false := rfl

@[simp] theorem isAudioStopFor_audioStart (f fn : Option String) (sid ts : String)
    (ch sr : Option Nat) (iso : Option String) :
    isAudioStopFor f (Marker.audioStart sid fn ts ch sr iso) = false := rfl

@[simp] theorem isAudioStopFor_audioStop (f fn : Option String) (ts : String) :
    isAudioStopFor f (Marker.audioStop fn ts) = (fn == f) := rfl

@[simp] theorem isVideoStartFor_videoStart (f fn : Option String) (sid ts iso : String)
    (fps : Option Nat) :
    isVideoStartFor f (Marker.videoStart sid fn ts iso fps) = (fn == f) := rfl

@[simp] theorem isVideoStartFor_videoStop (f fn : Option String) (ts : String) :
    isVideoStartFor f (Marker.videoStop fn ts) = false := rfl

@[simp] theorem isVideoStopFor_videoStart (f fn : Option String) (sid ts iso : String)
    (fps : Option Nat) :
    isVideoStopFor f (Marker.videoStart sid fn ts iso fps) = false := rfl

@[simp] theorem isVideoStopFor_videoStop (f fn : Option String) (ts : String) :
    isVideoStopFor f (Marker.videoStop fn ts) = (fn == f) := rfl

@[simp] theorem audioStartsFor_singleton (f : Option String) (m : Marker) :
    audioStartsFor f [m] = if isAudioStartFor f m then 1 else 0 := by
  simp [audioStartsFor, List.countP_cons, List.countP_nil]

@[simp] theorem audioStopsFor_singleton (f : Option String) (m : Marker) :
    audioStopsFor f [m] = if isAudioStopFor f m then 1 else 0 := by
  simp [audioStopsFor, List.countP_cons, List.countP_nil]

@[simp] theorem videoStartsFor_singleton (f : Option String) (m : Marker) :
    videoStartsFor f [m] = if isVideoStartFor f m then 1 else 0 := by
  simp [videoStartsFor, List.countP_cons, List.countP_nil]

@[simp] theorem videoStopsFor_singleton (f : Option String) (m : Marker) :
    videoStopsFor f [m] = if isVideoStopFor f m then 1 else 0 := by
  simp [videoStopsFor, List.countP_cons, List.countP_nil]

set_option maxHeartbeats 2000000 in
/-- Shape of one audio step: it publishes nothing (and then a recording
post-state kept its flag and filename from before), or exactly one
audio-start marker carrying the post-state's filename with the post-state
recording, or — only from a recording state — exactly one audio-stop marker
carrying the pre-state's filename with the post-state not recording. -/
theorem audioStep_shape (s : AudioRecorder.State) (op : AudioOp) :
    ((audioStep s op).2 = []
      ∧ ((audioStep s op).1.recording = true →
          s.recording = true ∧ (audioStep s op).1.audio_filename = s.audio_filename))
    ∨ (∃ sid ts ch sr iso, (audioStep s op).2
          = [Marker.audioStart sid ((audioStep s op).1.audio_filename) ts ch sr iso]
        ∧ (audioStep s op).1.recording = true)
    ∨ (s.recording = true
        ∧ (∃ ts, (audioStep s op).2 = [Marker.audioStop s.audio_filename ts])
        ∧ (audioStep s op).1.recording = false) := by
  cases op with
  | start cfg env sid dest di pre fn now =>
      by_cases h1 : s.recording = true
      · refine Or.inl ⟨?_, fun h => ⟨h1, ?_⟩⟩ <;>
          simp [audioStep, AudioRecorder.start_recording, h1]
      · by_cases h2 : (!(di.isSome || env.deviceFound)) = true
        · refine Or.inl ⟨?_, fun h => absurd h ?_⟩ <;>
            simp [audioStep, AudioRecorder.start_recording, h1, h2]
        · by_cases h3 : (di.isSome && !env.indexValid) = true
          · refine Or.inl ⟨?_, fun h => absurd h ?_⟩ <;>
              simp [audioStep, AudioRecorder.start_recording, h1, h2, h3]
          · by_cases h4 : env.openOk = true
            · by_cases h5 : (!env.makedirsOk) = true
              · refine Or.inl ⟨?_, fun h => absurd h ?_⟩ <;>
                  simp [audioStep, AudioRecorder.start_recording, h1, h2, h3, h4, h5]
              · by_cases h6 : pre = true
                · refine Or.inl ⟨?_, fun h => absurd h ?_⟩ <;>
                    simp [audioStep, AudioRecorder.start_recording, h1, h2, h3, h4, h5, h6]
                · refine Or.inr (Or.inl ⟨sid, now,
                      some (if cfg.use_device_defaults then min env.maxInputChannels 2
                        else min cfg.channels env.maxInputChannels),
                      some (if cfg.use_device_defaults then env.defaultSampleRate
                        else cfg.sample_rate),
                      none, ?_, ?_⟩) <;>
                    simp [audioStep, AudioRecorder.start_recording, h1, h2, h3, h4, h5, h6]
            · refine Or.inl ⟨?_, fun h => absurd h ?_⟩ <;>
                simp [audioStep, AudioRecorder.start_recording, h1, h2, h3, h4]
  | startPre sid now iso =>
      cases hs : s.audio_stream with
      | none =>
          simp only [audioStep, AudioRecorder.start_pre_initialized, hs]
          exact Or.inl ⟨by simp, fun h => ⟨h, by simp⟩⟩
      | some st =>
          simp only [audioStep, AudioRecorder.start_pre_initialized, hs]
          split_ifs <;>
            first
              | exact Or.inr (Or.inl ⟨_, _, _, _, _, rfl, rfl⟩)
              | exact Or.inl ⟨rfl, fun h => ⟨h, rfl⟩⟩
  | stop now w =>
      cases hs : s.audio_stream with
      | none =>
          simp only [audioStep, AudioRecorder.stop_recording, hs]
          split_ifs <;>
            first
              | exact Or.inl ⟨rfl, fun h => ⟨h, rfl⟩⟩
              | exact Or.inl ⟨rfl, fun h => absurd h (by simp_all)⟩
      | some st =>
          simp only [audioStep, AudioRecorder.stop_recording, hs]
          split_ifs <;>
            first
              | exact Or.inl ⟨rfl, fun h => ⟨h, rfl⟩⟩
              | exact Or.inl ⟨rfl, fun h => absurd h (by simp_all)⟩
              | exact Or.inr (Or.inr ⟨by simp_all, ⟨_, rfl⟩, rfl⟩)

set_option maxHeartbeats 2000000 in
/-- Shape of one video step, under the guard that `start_recording` with
`pre_initialize=True` is not invoked while Recording: the step publishes
nothing (a recording post-state kept flag and filename), or exactly one
video-start marker carrying the post-state's filename with the post-state
recording, or — only from a recording state — exactly one video-stop marker
carrying the pre-state's filename with the post-state not recording. -/
theorem videoStep_shape (s : VideoRecorder.State) (op : VideoOp)
    (hguard : (s.recording && isVideoArm op) = false) :
    ((videoStep s op).2 = []
      ∧ ((videoStep s op).1.recording = true →
          s.recording = true ∧ (videoStep s op).1.video_filename = s.video_filename))
    ∨ (∃ sid ts iso fps, (videoStep s op).2
          = [Marker.videoStart sid ((videoStep s op).1.video_filename) ts iso fps]
        ∧ (videoStep s op).1.recording = true)
    ∨ (s.recording = true
        ∧ (∃ ts, (videoStep s op).2 = [Marker.videoStop s.video_filename ts])
        ∧ (videoStep s op).1.recording = false) := by
  cases op with
  | start cfg env sid dest di pre fn now iso =>
      cases pre with
      | true =>
          have hrec : s.recording = false := by
            simp [isVideoArm] at hguard
            exact hguard
          cases hcap : s.video_capture with
          | none =>
              simp only [videoStep, VideoRecorder.start_recording, hcap]
              split_ifs <;>
                solve
                  | refine Or.inl ⟨?_, fun h => absurd h ?_⟩ <;> simp_all
          | some c =>
              simp only [videoStep, VideoRecorder.start_recording, hcap]
              split_ifs <;>
                solve
                  | refine Or.inl ⟨?_, fun h => absurd h ?_⟩ <;> simp_all
      | false =>
          cases hcap : s.video_capture with
          | none =>
              simp only [videoStep, VideoRecorder.start_recording, hcap]
              split_ifs <;>
                solve
                  | refine Or.inl ⟨?_, fun h => ⟨h, ?_⟩⟩ <;> simp
                  | refine Or.inl ⟨?_, fun h => absurd h ?_⟩ <;> simp_all
                  | exact Or.inr (Or.inl ⟨_, _, _, _, rfl, rfl⟩)
          | some c =>
              simp only [videoStep, VideoRecorder.start_recording, hcap]
              split_ifs <;>
                solve
                  | refine Or.inl ⟨?_, fun h => ⟨h, ?_⟩⟩ <;> simp
                  | refine Or.inl ⟨?_, fun h => absurd h ?_⟩ <;> simp_all
                  | exact Or.inr (Or.inl ⟨_, _, _, _, rfl, rfl⟩)
  | startPre sid now iso =>
      cases hcap : s.video_capture with
      | none =>
          simp only [videoStep, VideoRecorder.start_pre_initialized, hcap]
          refine Or.inl ⟨?_, fun h => ⟨h, ?_⟩⟩ <;> simp
      | some c =>
          simp only [videoStep, VideoRecorder.start_pre_initialized, hcap]
          exact Or.inr (Or.inl ⟨_, _, _, _, rfl, trivial⟩)
  | stop now b =>
      simp only [videoStep, VideoRecorder.stop_recording]
      split_ifs <;>
        solve
          | refine Or.inl ⟨?_, fun h => ⟨h, ?_⟩⟩ <;> simp
          | refine Or.inr (Or.inr ⟨?_, ⟨now, ?_⟩, ?_⟩) <;> simp_all
  | startPreview env =>
      simp only [videoStep, VideoRecorder.start_preview]
      cases hcap : s.video_capture <;>
        · simp only [hcap]
          split_ifs <;>
            solve
              | refine Or.inl ⟨?_, fun h => ⟨h, ?_⟩⟩ <;> simp
  | stopPreview =>
      simp only [videoStep, VideoRecorder.stop_preview]
      split_ifs <;>
        solve
          | refine Or.inl ⟨?_, fun h => ⟨h, ?_⟩⟩ <;> simp

/-- One audio step preserves the marker-count invariant: stops never exceed
starts per filename, and a recording state has strictly more starts than
stops for its current filename. -/
theorem audioStep_inv (s : AudioRecorder.State) (op : AudioOp) (log : List Marker)
    (h1 : ∀ f, audioStopsFor f log ≤ audioStartsFor f log)
    (h2 : s.recording = true →
      audioStopsFor s.audio_filename log < audioStartsFor s.audio_filename log) :
    (∀ f, audioStopsFor f (log ++ (audioStep s op).2)
        ≤ audioStartsFor f (log ++ (audioStep s op).2))
    ∧ ((audioStep s op).1.recording = true →
        audioStopsFor (audioStep s op).1.audio_filename (log ++ (audioStep s op).2)
          < audioStartsFor (audioStep s op).1.audio_filename (log ++ (audioStep s op).2)) := by
  rcases audioStep_shape s op with ⟨hms, hkeep⟩ | ⟨sid, ts, ch, sr, iso, hms, hrec⟩
    | ⟨hsrec, ⟨ts, hms⟩, hrec⟩
  · constructor
    · intro f
      rw [hms, List.append_nil]
      exact h1 f
    · intro h
      obtain ⟨hs, hf⟩ := hkeep h
      rw [hms, List.append_nil, hf]
      exact h2 hs
  · constructor
    · intro f
      have := h1 f
      rw [hms, audioStopsFor_append, audioStartsFor_append]
      simp only [audioStartsFor_singleton, audioStopsFor_singleton,
        isAudioStopFor_audioStart, isAudioStartFor_audioStart]
      split_ifs <;> solve | omega | simp_all
    · intro _
      have := h1 ((audioStep s op).1.audio_filename)
      rw [hms, audioStopsFor_append, audioStartsFor_append]
      simp only [audioStartsFor_singleton, audioStopsFor_singleton,
        isAudioStopFor_audioStart, isAudioStartFor_audioStart, beq_self_eq_true]
      split_ifs <;> solve | omega | simp_all
  · constructor
    · intro f
      rw [hms, audioStopsFor_append, audioStartsFor_append]
      simp only [audioStartsFor_singleton, audioStopsFor_singleton,
        isAudioStopFor_audioStop, isAudioStartFor_audioStop]
      by_cases hf : s.audio_filename = f
      · subst hf
        have := h2 hsrec
        simp only [beq_self_eq_true]
        split_ifs <;> solve | omega | simp_all
      · have hbe : (s.audio_filename == f) = false := by
          simp [hf]
        have := h1 f
        simp only [hbe]
        split_ifs <;> solve | omega | simp_all
    · intro h
      rw [hrec] at h
      exact absurd h (by simp)

/-- One guarded video step preserves the marker-count invariant. -/
theorem videoStep_inv (s : VideoRecorder.State) (op : VideoOp) (log : List Marker)
    (hguard : (s.recording && isVideoArm op) = false)
    (h1 : ∀ f, videoStopsFor f log ≤ videoStartsFor f log)
    (h2 : s.recording = true →
      videoStopsFor s.video_filename log < videoStartsFor s.video_filename log) :
    (∀ f, videoStopsFor f (log ++ (videoStep s op).2)
        ≤ videoStartsFor f (log ++ (videoStep s op).2))
    ∧ ((videoStep s op).1.recording = true →
        videoStopsFor (videoStep s op).1.video_filename (log ++ (videoStep s op).2)
          < videoStartsFor (videoStep s op).1.video_filename (log ++ (videoStep s op).2)) := by
  rcases videoStep_shape s op hguard with ⟨hms, hkeep⟩ | ⟨sid, ts, iso, fps, hms, hrec⟩
    | ⟨hsrec, ⟨ts, hms⟩, hrec⟩
  · constructor
    · intro f
      rw [hms, List.append_nil]
      exact h1 f
    · intro h
      obtain ⟨hs, hf⟩ := hkeep h
      rw [hms, List.append_nil, hf]
      exact h2 hs
  · constructor
    · intro f
      have := h1 f
      rw [hms, videoStopsFor_append, videoStartsFor_append]
      simp only [videoStartsFor_singleton, videoStopsFor_singleton,
        isVideoStopFor_videoStart, isVideoStartFor_videoStart]
      split_ifs <;> solve | omega | simp_all
    · intro _
      have := h1 ((videoStep s op).1.video_filename)
      rw [hms, videoStopsFor_append, videoStartsFor_append]
      simp only [videoStartsFor_singleton, videoStopsFor_singleton,
        isVideoStopFor_videoStart, isVideoStartFor_videoStart, beq_self_eq_true]
      split_ifs <;> solve | omega | simp_all
  · constructor
    · intro f
      rw [hms, videoStopsFor_append, videoStartsFor_append]
      simp only [videoStartsFor_singleton, videoStopsFor_singleton,
        isVideoStopFor_videoStop, isVideoStartFor_videoStop]
      by_cases hf : s.video_filename = f
      · subst hf
        have := h2 hsrec
        simp only [beq_self_eq_true]
        split_ifs <;> solve | omega | simp_all
      · have hbe : (s.video_filename == f) = false := by
          simp [hf]
        have := h1 f
        simp only [hbe]
        split_ifs <;> solve | omega | simp_all
    · intro h
      rw [hrec] at h
      exact absurd h (by simp)

/-- Running any audio operation sequence preserves the marker-count
invariant. -/
theorem audioRun_inv (ops : List AudioOp) :
    ∀ (s : AudioRecorder.State) (log : List Marker),
      (∀ f, audioStopsFor f log ≤ audioStartsFor f log) →
      (s.recording = true →
        audioStopsFor s.audio_filename log < audioStartsFor s.audio_filename log) →
      ∀ f, audioStopsFor f (log ++ (audioRun s ops).2)
        ≤ audioStartsFor f (log ++ (audioRun s ops).2) := by
  induction ops with
  | nil =>
      intro s log h1 _ f
      simpa [audioRun] using h1 f
  | cons op ops ih =>
      intro s log h1 h2 f
      obtain ⟨g1, g2⟩ := audioStep_inv s op log h1 h2
      have hx := ih (audioStep s op).1 (log ++ (audioStep s op).2) g1 g2 f
      rw [List.append_assoc] at hx
      simpa [audioRun] using hx

/-- Running any guarded video operation sequence preserves the marker-count
invariant. -/
theorem videoRun_inv (ops : List VideoOp) :
    ∀ (s : VideoRecorder.State) (log : List Marker),
      videoNoArmWhileRec s ops = true →
      (∀ f, videoStopsFor f log ≤ videoStartsFor f log) →
      (s.recording = true →
        videoStopsFor s.video_filename log < videoStartsFor s.video_filename log) →
      ∀ f, videoStopsFor f (log ++ (videoRun s ops).2)
        ≤ videoStartsFor f (log ++ (videoRun s ops).2) := by
  induction ops with
  | nil =>
      intro s log _ h1 _ f
      simpa [videoRun] using h1 f
  | cons op ops ih =>
      intro s log hg h1 h2 f
      simp only [videoNoArmWhileRec, Bool.and_eq_true, Bool.not_eq_true'] at hg
      obtain ⟨g1, g2⟩ := videoStep_inv s op log hg.1 h1 h2
      have hx := ih (videoStep s op).1 (log ++ (videoStep s op).2) hg.2 g1 g2 f
      rw [List.append_assoc] at hx
      simpa [videoRun] using hx

/-- C3 as amended: over every sequence of public operations from the initial
state, and for every filename, the number of stop markers never exceeds the
number of start markers carrying that filename — so a stop marker only
follows an earlier start marker for the same filename, and at most one stop
is published per start.  This holds unconditionally for audio sessions; for
video sessions it holds provided `start_recording(pre_initialize=True)` is
never invoked while the session is Recording (the code permits such a call,
which reassigns the filename mid-run). -/
theorem C3_stop_marker_counts :
    (∀ (ops : List AudioOp) (f : Option String),
      audioStopsFor f (audioRun AudioRecorder.init ops).2
        ≤ audioStartsFor f (audioRun AudioRecorder.init ops).2)
    ∧ (∀ (ops : List VideoOp) (f : Option String),
      videoNoArmWhileRec VideoRecorder.init ops = true →
      videoStopsFor f (videoRun VideoRecorder.init ops).2
        ≤ videoStartsFor f (videoRun VideoRecorder.init ops).2) := by
  constructor
  · intro ops f
    have hx := audioRun_inv ops AudioRecorder.init []
      (fun f => by simp [audioStopsFor, audioStartsFor])
      (fun h => by simp [AudioRecorder.init] at h) f
    simpa using hx
  · intro ops f hg
    have hx := videoRun_inv ops VideoRecorder.init [] hg
      (fun f => by simp [videoStopsFor, videoStartsFor])
      (fun h => by simp [VideoRecorder.init] at h) f
    simpa using hx

/-- Witness for C3 at concrete runs: a direct audio start/stop run, and a
guarded video start/stop run. -/
theorem C3_stop_marker_counts_witness :
    audioStopsFor (some "out/s3_audio_TW.wav")
        (audioRun AudioRecorder.init
          [AudioOp.start ⟨true, 1, 44100, 8, "_audio"⟩ ⟨true, true, 2, 44100, true, true⟩
            "s3" "out" none false none "TW",
           AudioOp.stop "TX" true]).2
      ≤ audioStartsFor (some "out/s3_audio_TW.wav")
        (audioRun AudioRecorder.init
          [AudioOp.start ⟨true, 1, 44100, 8, "_audio"⟩ ⟨true, true, 2, 44100, true, true⟩
            "s3" "out" none false none "TW",
           AudioOp.stop "TX" true]).2
    ∧ videoStopsFor (some "out/s3_video_TW.mp4")
        (videoRun VideoRecorder.init
          [VideoOp.start ⟨24, "_video"⟩ ⟨true, 0, false⟩ "s3" "out" none false none "TW" "IW",
           VideoOp.stop "TX" true]).2
      ≤ videoStartsFor (some "out/s3_video_TW.mp4")
        (videoRun VideoRecorder.init
          [VideoOp.start ⟨24, "_video"⟩ ⟨true, 0, false⟩ "s3" "out" none false none "TW" "IW",
           VideoOp.stop "TX" true]).2 :=
  ⟨C3_stop_marker_counts.1
      [AudioOp.start ⟨true, 1, 44100, 8, "_audio"⟩ ⟨true, true, 2, 44100, true, true⟩
        "s3" "out" none false none "TW",
       AudioOp.stop "TX" true] (some "out/s3_audio_TW.wav"),
   C3_stop_marker_counts.2
      [VideoOp.start ⟨24, "_video"⟩ ⟨true, 0, false⟩ "s3" "out" none false none "TW" "IW",
       VideoOp.stop "TX" true] (some "out/s3_video_TW.mp4") (by decide)⟩

/-- Counterexample to C3 as originally stated: on a video session, start
directly (publishing a start marker for the first filename), then invoke
`start_recording(pre_initialize=True)` while Recording — the code accepts it
and reassigns the filename — then stop: the published log contains a stop
marker for the second filename although no start marker for that filename
was ever published. -/
theorem C3_counterexample :
    videoStopsFor (some "out/s3_video_TB.mp4")
        (videoRun VideoRecorder.init
          [VideoOp.start ⟨24, "_video"⟩ ⟨true, 0, false⟩ "s3" "out" none false none "TA" "IA",
           VideoOp.start ⟨24, "_video"⟩ ⟨true, 0, false⟩ "s3" "out" none true none "TB" "IB",
           VideoOp.stop "TC" true]).2 = 1
      ∧ videoStartsFor (some "out/s3_video_TB.mp4")
        (videoRun VideoRecorder.init
          [VideoOp.start ⟨24, "_video"⟩ ⟨true, 0, false⟩ "s3" "out" none false none "TA" "IA",
           VideoOp.start ⟨24, "_video"⟩ ⟨true, 0, false⟩ "s3" "out" none true none "TB" "IB",
           VideoOp.stop "TC" true]).2 = 0 := by
  decide
